import Mathlib

/-!
Shallow embedding of the normalized entity cache and relationship-index
engine of `src/reststate-vuex.js` (the first, relationship-aware variant of
the module, whose `STORE_RELATED` keys entries by parent identifier plus
relationship name).  JavaScript objects are modelled as Lean structures,
the per-type Vuex module state as `ModuleState`, the registry of modules as
an association list `GlobalStore`, and the asynchronous actions as pure
functions parameterized by the transport outcome (`Except Value _`): a JS
promise that resolves runs the `.then` continuation, and one that rejects
skips it and propagates the error, which is exactly what the `Except`
plumbing expresses.
-/

namespace Reststate

/-- JSON-like values: attribute payloads, filter parameters, error payloads
and `meta` blobs are arbitrary JSON, modelled by this type.  An `obj` is an
association list of fields in insertion order. -/
inductive Value : Type where
  | null : Value
  | bool (b : Bool) : Value
  | num (n : Int) : Value
  | str (s : String) : Value
  | arr (elems : List Value) : Value
  | obj (fields : List (String × Value)) : Value

mutual

/-- Decidable equality on the nested `Value` tree (written by hand, with
mutually recursive helpers for the nested lists, since the automatic
derivation does not support nested inductives). -/
def Value.decEq : (a b : Value) → Decidable (a = b)
  | .null, .null => isTrue rfl
  | .bool a, .bool b =>
      if h : a = b then isTrue (by rw [h])
      else isFalse (by intro hh; injection hh with hh; exact h hh)
  | .num a, .num b =>
      if h : a = b then isTrue (by rw [h])
      else isFalse (by intro hh; injection hh with hh; exact h hh)
  | .str a, .str b =>
      if h : a = b then isTrue (by rw [h])
      else isFalse (by intro hh; injection hh with hh; exact h hh)
  | .arr as, .arr bs =>
      match Value.decEqList as bs with
      | isTrue h => isTrue (by rw [h])
      | isFalse h => isFalse (by intro hh; injection hh with hh; exact h hh)
  | .obj fs, .obj gs =>
      match Value.decEqFields fs gs with
      | isTrue h => isTrue (by rw [h])
      | isFalse h => isFalse (by intro hh; injection hh with hh; exact h hh)
  | .null, .bool _ => isFalse (fun h => Value.noConfusion h)
  | .null, .num _ => isFalse (fun h => Value.noConfusion h)
  | .null, .str _ => isFalse (fun h => Value.noConfusion h)
  | .null, .arr _ => isFalse (fun h => Value.noConfusion h)
  | .null, .obj _ => isFalse (fun h => Value.noConfusion h)
  | .bool _, .null => isFalse (fun h => Value.noConfusion h)
  | .bool _, .num _ => isFalse (fun h => Value.noConfusion h)
  | .bool _, .str _ => isFalse (fun h => Value.noConfusion h)
  | .bool _, .arr _ => isFalse (fun h => Value.noConfusion h)
  | .bool _, .obj _ => isFalse (fun h => Value.noConfusion h)
  | .num _, .null => isFalse (fun h => Value.noConfusion h)
  | .num _, .bool _ => isFalse (fun h => Value.noConfusion h)
  | .num _, .str _ => isFalse (fun h => Value.noConfusion h)
  | .num _, .arr _ => isFalse (fun h => Value.noConfusion h)
  | .num _, .obj _ => isFalse (fun h => Value.noConfusion h)
  | .str _, .null => isFalse (fun h => Value.noConfusion h)
  | .str _, .bool _ => isFalse (fun h => Value.noConfusion h)
  | .str _, .num _ => isFalse (fun h => Value.noConfusion h)
  | .str _, .arr _ => isFalse (fun h => Value.noConfusion h)
  | .str _, .obj _ => isFalse (fun h => Value.noConfusion h)
  | .arr _, .null => isFalse (fun h => Value.noConfusion h)
  | .arr _, .bool _ => isFalse (fun h => Value.noConfusion h)
  | .arr _, .num _ => isFalse (fun h => Value.noConfusion h)
  | .arr _, .str _ => isFalse (fun h => Value.noConfusion h)
  | .arr _, .obj _ => isFalse (fun h => Value.noConfusion h)
  | .obj _, .null => isFalse (fun h => Value.noConfusion h)
  | .obj _, .bool _ => isFalse (fun h => Value.noConfusion h)
  | .obj _, .num _ => isFalse (fun h => Value.noConfusion h)
  | .obj _, .str _ => isFalse (fun h => Value.noConfusion h)
  | .obj _, .arr _ => isFalse (fun h => Value.noConfusion h)

def Value.decEqList : (a b : List Value) → Decidable (a = b)
  | [], [] => isTrue rfl
  | [], _ :: _ => isFalse (by intro hh; simp at hh)
  | _ :: _, [] => isFalse (by intro hh; simp at hh)
  | x :: xs, y :: ys =>
      match Value.decEq x y, Value.decEqList xs ys with
      | isTrue h1, isTrue h2 => isTrue (by rw [h1, h2])
      | isFalse h1, _ =>
          isFalse (by intro hh; injection hh with hl ht; exact h1 hl)
      | _, isFalse h2 =>
          isFalse (by intro hh; injection hh with hl ht; exact h2 ht)

def Value.decEqFields : (a b : List (String × Value)) → Decidable (a = b)
  | [], [] => isTrue rfl
  | [], _ :: _ => isFalse (by intro hh; simp at hh)
  | _ :: _, [] => isFalse (by intro hh; simp at hh)
  | (k, v) :: fs, (k', v') :: fs' =>
      if hk : k = k' then
        match Value.decEq v v', Value.decEqFields fs fs' with
        | isTrue h1, isTrue h2 => isTrue (by rw [hk, h1, h2])
        | isFalse h1, _ =>
            isFalse (by
              intro hh; injection hh with hl ht
              exact h1 (congrArg Prod.snd hl))
        | _, isFalse h2 =>
            isFalse (by intro hh; injection hh with hl ht; exact h2 ht)
      else
        isFalse (by
          intro hh; injection hh with hl ht
          exact hk (congrArg Prod.fst hl))

end

instance : DecidableEq Value := Value.decEq

/-- Modelled from the spec: `deepEquals` (imported from `./deepEquals`,
whose source file is not part of the sources given) is the "structural
equality test used to match stored filter/relationship index entries
against query parameters" (spec section 2, component 1).  On the `Value`
tree, structural equality is decidable equality. -/
def deepEquals (a b : Value) : Bool := decide (a = b)

/-- `getResourceIdentifier` projects `{ type, id }` out of a resource
object (`reststate-vuex.js` lines 18-27). -/
structure ResourceIdentifier : Type where
  type : String
  id : String
  deriving DecidableEq

/-- The `data` member of a JSON:API relationship object: explicitly
`null`, a single resource identifier (to-one), or an array of resource
identifiers (to-many). -/
inductive RelData : Type where
  | null : RelData
  | one (rid : ResourceIdentifier) : RelData
  | many (rids : List ResourceIdentifier) : RelData
  deriving DecidableEq

/-- A relationship object `{ data: ... }`. -/
structure RelationshipObject : Type where
  data : RelData
  deriving DecidableEq

/-- A resource object.  `attributes` and `relationships` are `Option`s
because a JS object may lack those keys; `Object.assign` in `storeRecord`
only overwrites keys the new record actually carries. -/
structure RRecord : Type where
  type : String
  id : String
  attributes : Option Value := none
  relationships : Option (List (String × RelationshipObject)) := none
  deriving DecidableEq

/-- The value stored in a relationship-index entry: a single id (to-one),
a list of ids (to-many), or `null` (relationship explicitly absent). -/
inductive RelatedIds : Type where
  | null : RelatedIds
  | one (id : String) : RelatedIds
  | many (ids : List String) : RelatedIds
  deriving DecidableEq

/-- A relationship-index entry, as pushed by `STORE_RELATED`
(`Object.assign({ relatedIds }, relationshipIndex)`): the parent resource
identifier (possibly `undefined` when the caller passed no parent, hence
`Option`), the relationship name, and the related ids. -/
structure RelEntry : Type where
  parent : Option ResourceIdentifier
  relationship : String
  relatedIds : RelatedIds
  deriving DecidableEq

/-- A filter-index entry, as pushed by `STORE_FILTERED`
(`Object.assign({ matchedIds }, params)`): the parameter object's own
fields plus the matched ids.  (The parameter objects supplied by
`loadWhere`/`where` carry keys such as `filter` and `options`, never a
`matchedIds` key, so keeping `matchedIds` separate from the spread params
is faithful.) -/
structure FilterEntry : Type where
  params : List (String × Value)
  matchedIds : List String
  deriving DecidableEq

/-- The four-state status machine of a module. -/
inductive Status : Type where
  | INITIAL : Status
  | LOADING : Status
  | ERROR : Status
  | SUCCESS : Status
  deriving DecidableEq

/-- Pagination links; only `next` and `prev` are ever read. -/
structure Links : Type where
  next : Option String := none
  prev : Option String := none
  deriving DecidableEq

/-- Per-resource-type module state (`initialState` lists its fields). -/
structure ModuleState : Type where
  records : List RRecord
  related : List RelEntry
  filtered : List FilterEntry
  page : List String
  error : Option Value
  status : Status
  links : Links
  lastCreated : Option RRecord
  lastMeta : Option Value
  deriving DecidableEq

/-- `initialState` (`reststate-vuex.js` lines 94-104). -/
def initialState : ModuleState where
  records := []
  related := []
  filtered := []
  page := []
  error := none
  status := Status.INITIAL
  links := {}
  lastCreated := none
  lastMeta := none

/-- `Object.assign(existingRecord, newRecord)`: every key the new record
carries overwrites the existing record's key; keys absent from the new
record (its `Option` fields being `none`) are left as they were.  `type`
and `id` are always present on a resource object. -/
def mergeRecord (old new : RRecord) : RRecord where
  type := new.type
  id := new.id
  attributes := match new.attributes with
    | some a => some a
    | none => old.attributes
  relationships := match new.relationships with
    | some r => some r
    | none => old.relationships

/-- `storeRecord` (lines 9-16): find the first record with the same id and
`Object.assign` the new record onto it in place; if there is none, push
the new record at the end. -/
def storeRecord : List RRecord → RRecord → List RRecord
  | [], newRecord => [newRecord]
  | r :: rs, newRecord =>
      if r.id = newRecord.id then mergeRecord r newRecord :: rs
      else r :: storeRecord rs newRecord

/-- `getResourceIdentifier` (lines 18-27): `null`/`undefined` passes
through; otherwise project `{ type, id }`.  (Callers pass either a full
resource object or an identifier; `recordIdentifier` below performs the
projection from a full record.) -/
def getResourceIdentifier : Option ResourceIdentifier → Option ResourceIdentifier
  | none => none
  | some r => some { type := r.type, id := r.id }

/-- The `{ type, id }` projection of a full resource object, as
`getResourceIdentifier` computes it when handed a record. -/
def recordIdentifier (r : RRecord) : ResourceIdentifier where
  type := r.type
  id := r.id

/-- `getRelationshipType` (lines 29-35): `data && data.type`, after taking
`data[0]` when `data` is an array (`undefined` on an empty array). -/
def getRelationshipType (relationship : RelationshipObject) : Option String :=
  match relationship.data with
  | .null => none
  | .one rid => some rid.type
  | .many [] => none
  | .many (rid :: _) => some rid.type

/-- The parameter object accepted by `storeRelated`/`related`/
`loadRelated`: a parent (possibly missing) and an optional relationship
name (defaulted to the module's resource name when absent). -/
structure RelParams : Type where
  parent : Option ResourceIdentifier := none
  relationship : Option String := none
  deriving DecidableEq

/-- The relationship-index key built by `getRelationshipIndex`
(lines 109-117): `{ parent: getResourceIdentifier(parent), relationship }`
with `relationship` defaulting to the module's `resourceName`. -/
structure RelKey : Type where
  parent : Option ResourceIdentifier
  relationship : String
  deriving DecidableEq

/-- `getRelationshipIndex(params)` for the module named `resourceName`. -/
def getRelationshipIndex (resourceName : String) (params : RelParams) : RelKey where
  parent := getResourceIdentifier params.parent
  relationship := params.relationship.getD resourceName

/-- `matches(relationshipIndex)` specialised to relationship-index
entries: `matches` (lines 85-86) checks every key of the criteria object —
here `parent` and `relationship`, the two keys of the index — against the
candidate with `deepEquals`; the entry's extra `relatedIds` key is not a
criteria key and is therefore not compared. -/
def relMatches (k : RelKey) (e : RelEntry) : Bool :=
  decide (k.parent = e.parent) && decide (k.relationship = e.relationship)

/-- `matches(params)` specialised to filter-index entries: every key of
the `params` object must `deepEquals`-match the candidate entry's value
for that key (a key that the entry lacks compares unequal, as
`deepEquals(v, undefined)` is false for a present criteria value `v`). -/
def matchesParams (criteria : List (String × Value)) (entry : List (String × Value)) : Bool :=
  criteria.all fun kv =>
    match entry.find? (fun kv' => kv'.1 = kv.1) with
    | some kv' => deepEquals kv.2 kv'.2
    | none => false

/-- `STORE_RELATED`'s find-or-push over the `related` list (lines
161-170): overwrite the first entry matching the relationship-index key in
place, else push `Object.assign({ relatedIds }, relationshipIndex)`. -/
def storeRelEntry : List RelEntry → RelKey → RelatedIds → List RelEntry
  | [], k, ids => [{ parent := k.parent, relationship := k.relationship, relatedIds := ids }]
  | e :: es, k, ids =>
      if relMatches k e then { e with relatedIds := ids } :: es
      else e :: storeRelEntry es k ids

/-- `STORE_FILTERED`'s find-or-push over the `filtered` list (lines
172-181). -/
def storeFilterEntry : List FilterEntry → List (String × Value) → List String → List FilterEntry
  | [], params, ids => [{ params := params, matchedIds := ids }]
  | e :: es, params, ids =>
      if matchesParams params e.params then { e with matchedIds := ids } :: es
      else e :: storeFilterEntry es params ids

/-- `SET_STATUS` (lines 133-135). -/
def SET_STATUS (state : ModuleState) (status : Status) : ModuleState :=
  { state with status := status }

/-- `REPLACE_ALL_RECORDS` (lines 125-127). -/
def REPLACE_ALL_RECORDS (state : ModuleState) (records : List RRecord) : ModuleState :=
  { state with records := records }

/-- `STORE_RECORD` (lines 137-141). -/
def STORE_RECORD (state : ModuleState) (newRecord : RRecord) : ModuleState :=
  { state with records := storeRecord state.records newRecord }

/-- `STORE_RECORDS` (lines 143-147): `newRecords.forEach(storeRecord(records))`. -/
def STORE_RECORDS (state : ModuleState) (newRecords : List RRecord) : ModuleState :=
  { state with records := newRecords.foldl storeRecord state.records }

/-- `STORE_PAGE` (lines 149-151). -/
def STORE_PAGE (state : ModuleState) (records : List RRecord) : ModuleState :=
  { state with page := records.map (fun r => r.id) }

/-- `STORE_META` (lines 153-155). -/
def STORE_META (state : ModuleState) (meta : Option Value) : ModuleState :=
  { state with lastMeta := meta }

/-- `STORE_ERROR` (lines 157-159). -/
def STORE_ERROR (state : ModuleState) (e : Value) : ModuleState :=
  { state with error := some e }

/-- `STORE_RELATED` (lines 161-170) in the module named `resourceName`. -/
def STORE_RELATED (resourceName : String) (state : ModuleState)
    (relatedIds : RelatedIds) (params : RelParams) : ModuleState :=
  { state with
    related := storeRelEntry state.related (getRelationshipIndex resourceName params) relatedIds }

/-- `STORE_FILTERED` (lines 172-181). -/
def STORE_FILTERED (state : ModuleState) (matchedIds : List String)
    (params : List (String × Value)) : ModuleState :=
  { state with filtered := storeFilterEntry state.filtered params matchedIds }

/-- `STORE_LAST_CREATED` (lines 183-185). -/
def STORE_LAST_CREATED (state : ModuleState) (record : RRecord) : ModuleState :=
  { state with lastCreated := some record }

/-- `REMOVE_RECORD` (lines 187-189). -/
def REMOVE_RECORD (state : ModuleState) (record : RRecord) : ModuleState :=
  { state with records := state.records.filter (fun r => r.id ≠ record.id) }

/-- `SET_LINKS` (lines 191-193): `state.links = links || {}`. -/
def SET_LINKS (state : ModuleState) (links : Option Links) : ModuleState :=
  { state with links := links.getD {} }

/-- `RESET_STATE` (lines 195-197): `Object.assign(state, initialState())`
overwrites every field, since `initialState` carries them all. -/
def RESET_STATE (_state : ModuleState) : ModuleState :=
  initialState

/-- Getter `isLoading` (line 459). -/
def isLoading (state : ModuleState) : Bool :=
  state.status = Status.LOADING

/-- Getter `isError` (line 460). -/
def isError (state : ModuleState) : Bool :=
  state.status = Status.ERROR

/-- Getter `error` (line 461). -/
def errorGetter (state : ModuleState) : Option Value :=
  state.error

/-- Getter `hasPrevious` (line 462): `!!state.links.prev`. -/
def hasPrevious (state : ModuleState) : Bool :=
  state.links.prev.isSome

/-- Getter `hasNext` (line 463): `!!state.links.next`. -/
def hasNext (state : ModuleState) : Bool :=
  state.links.next.isSome

/-- Getter `all` (line 464). -/
def all (state : ModuleState) : List RRecord :=
  state.records

/-- Getter `lastCreated` (line 465). -/
def lastCreated (state : ModuleState) : Option RRecord :=
  state.lastCreated

/-- Getter `byId` (line 466): `state.records.find(r => r.id == id)`. -/
def byId (state : ModuleState) (id : String) : Option RRecord :=
  state.records.find? (fun r => r.id = id)

/-- Getter `lastMeta` (line 467). -/
def lastMeta (state : ModuleState) : Option Value :=
  state.lastMeta

/-- Getter `page` (lines 468-469): a missing id leaves `undefined` in the
result, hence `Option RRecord` elements. -/
def page (state : ModuleState) : List (Option RRecord) :=
  state.page.map (fun id => state.records.find? (fun r => r.id = id))

/-- Getter `where` (lines 470-479): no matching filter entry yields `[]`;
otherwise the matched ids are mapped over the store with no filtering, so
an id that no longer resolves leaves an `undefined` (`none`) behind. -/
def whereGet (state : ModuleState) (params : List (String × Value)) : List (Option RRecord) :=
  match state.filtered.find? (fun e => matchesParams params e.params) with
  | none => []
  | some entry =>
      entry.matchedIds.map (fun id => state.records.find? (fun r => r.id = id))

/-- The three shapes the `related` getter can return: JS `null` when no
entry matches, an array of records for a to-many entry, or a single
record / `undefined` for a to-one (or nulled) entry. -/
inductive RelatedReturn : Type where
  | null : RelatedReturn
  | list (records : List RRecord) : RelatedReturn
  | single (record : Option RRecord) : RelatedReturn
  deriving DecidableEq

/-- Getter `related` (lines 480-495), in the module named `resourceName`:
no matching entry yields `null`; a list of related ids is mapped over the
store and the `undefined`s are filtered out; a single id is looked up
directly (when `relatedIds` is JS `null`, `id === record.id` never holds
for a string-keyed record, so the lookup yields `undefined`). -/
def related (resourceName : String) (state : ModuleState) (params : RelParams) : RelatedReturn :=
  match state.related.find? (relMatches (getRelationshipIndex resourceName params)) with
  | none => .null
  | some entry =>
      match entry.relatedIds with
      | .many ids =>
          .list (((ids.map (fun id => state.records.find? (fun r => r.id = id))).filterMap
            (fun x => x)))
      | .one id => .single (state.records.find? (fun r => id = r.id))
      | .null => .single none

/-- The registry of per-type modules, keyed by resource name
(`mapResourceModules` registers one module per name; names are unique
object keys). -/
def GlobalStore : Type := List (String × ModuleState)

/-- Look up the module registered under `name`. -/
def lookupModule (g : GlobalStore) (name : String) : Option ModuleState :=
  (List.find? (fun p => p.1 = name) g).map (fun p => p.2)

/-- Apply a state transition to the module registered under `name`;
dispatching into an unregistered namespace is a no-op on state (Vuex
reports an unknown action/mutation type without mutating anything). -/
def updateModule (g : GlobalStore) (name : String) (f : ModuleState → ModuleState) : GlobalStore :=
  List.map (fun p => if p.1 = name then (p.1, f p.2) else p) g

/-- Dispatch `${type}/storeRelated` (the `storeRelated` action commits
`STORE_RELATED` on the target module, lines 394-399); a JS `undefined`
type (`none`) dispatches into no module. -/
def dispatchStoreRelated (g : GlobalStore) (type : Option String)
    (relatedIds : RelatedIds) (params : RelParams) : GlobalStore :=
  match type with
  | none => g
  | some t => updateModule g t (fun st => STORE_RELATED t st relatedIds params)

/-- Dispatch `${type}/storeRecord` (the `storeRecord` action commits
`STORE_RECORD` on the target module, lines 390-392). -/
def dispatchStoreRecord (g : GlobalStore) (type : String) (record : RRecord) : GlobalStore :=
  updateModule g type (fun st => STORE_RECORD st record)

/-- Primary `data` of a response: a single resource or an array. -/
inductive PrimaryData : Type where
  | one (record : RRecord) : PrimaryData
  | many (records : List RRecord) : PrimaryData

/-- The `[...allRecords]` list scanned by `storeIncluded`: the included
records followed by the primary data (lines 46-51). -/
def scannedRecords (data : PrimaryData) (included : List RRecord) : List RRecord :=
  included ++ (match data with
    | .many rs => rs
    | .one r => [r])

/-- The skip test of `storeIncluded` (line 57):
`!relationship.data || relationship.data.length === 0` — true exactly for
explicitly-`null` data and for an empty array (a to-one object has no
`length`, so `length === 0` is false for it). -/
def relSkip (relationship : RelationshipObject) : Bool :=
  match relationship.data with
  | .null => true
  | .many [] => true
  | _ => false

/-- The `relatedIds` extracted by `storeIncluded` (lines 62-69): the id
list of a to-many relationship, or the single id of a to-one. Only called
on non-skipped relationships, for which `.null` cannot occur (the JS
destructuring of a `null` would throw; it is unreachable behind the skip
test, and extracting from `null` here mirrors `({id} = null)` yielding no
id — modelled as the `null` marker, never produced in practice). -/
def extractRelatedIds (relationship : RelationshipObject) : RelatedIds :=
  match relationship.data with
  | .many rids => .many (rids.map (fun rid => rid.id))
  | .one rid => .one rid.id
  | .null => .null

/-- One iteration of the relationship loop of `storeIncluded`
(lines 55-79) for the scanned record `primaryRecord` and the relationship
named `relationshipName`. -/
def storeIncludedRel (primaryRecord : RRecord) (g : GlobalStore)
    (entry : String × RelationshipObject) : GlobalStore :=
  if relSkip entry.2 then g
  else
    dispatchStoreRelated g (getRelationshipType entry.2) (extractRelatedIds entry.2)
      { parent := some (recordIdentifier primaryRecord), relationship := some entry.1 }

/-- The body of the `allRecords.forEach` of `storeIncluded` (lines 53-81)
for one scanned record. -/
def storeIncludedRecordRels (g : GlobalStore) (primaryRecord : RRecord) : GlobalStore :=
  match primaryRecord.relationships with
  | none => g
  | some rels => rels.foldl (storeIncludedRel primaryRecord) g

/-- `storeIncluded` (lines 37-83): when the response carries an `included`
key (an empty array is truthy and still processed), store every included
record in its own type's module, then record the relationships of every
included and primary record. -/
def storeIncluded (g : GlobalStore) (data : PrimaryData)
    (included : Option (List RRecord)) : GlobalStore :=
  match included with
  | none => g
  | some inc =>
      let g1 := inc.foldl (fun g r => dispatchStoreRecord g r.type r) g
      (scannedRecords data inc).foldl storeIncludedRecordRels g1

/-- A collection response (`client.all` / `client.where`): primary data is
an array of records, with optional `included`, `meta` and `links`. -/
structure CollectionDoc : Type where
  data : List RRecord
  included : Option (List RRecord) := none
  meta : Option Value := none
  links : Option Links := none

/-- A single-resource response (`client.find` / `client.create`). -/
structure SingleDoc : Type where
  data : RRecord
  included : Option (List RRecord) := none
  meta : Option Value := none

/-- A `client.related` response: primary data may be a single record or an
array. -/
structure RelatedDoc : Type where
  data : PrimaryData
  included : Option (List RRecord) := none
  meta : Option Value := none

/-- `handleError` (lines 88-92): commit `SET_STATUS ERROR` and
`STORE_ERROR`, then `throw` the same error value (the throw is the
`.error e` result that every caller of `handleError` propagates). -/
def handleError (g : GlobalStore) (self : String) (e : Value) : GlobalStore :=
  updateModule g self (fun st => STORE_ERROR (SET_STATUS st Status.ERROR) e)

/-- Action `loadAll` (lines 201-212) of the module named `self`, given the
outcome of the `client.all` transport call.  `SET_STATUS LOADING` is
committed synchronously before the call; the success continuation commits
`SUCCESS`, replaces the records wholesale, stores the meta and resolves
the compound document; a rejection runs `handleError` and re-raises. -/
def loadAll (g : GlobalStore) (self : String)
    (outcome : Except Value CollectionDoc) : GlobalStore × Except Value Unit :=
  let g0 := updateModule g self (fun st => SET_STATUS st Status.LOADING)
  match outcome with
  | .ok result =>
      let g1 := updateModule g0 self fun st =>
        STORE_META (REPLACE_ALL_RECORDS (SET_STATUS st Status.SUCCESS) result.data) result.meta
      (storeIncluded g1 (.many result.data) result.included, .ok ())
  | .error e => (handleError g0 self e, .error e)

/-- Action `loadById` (lines 214-225). -/
def loadById (g : GlobalStore) (self : String)
    (outcome : Except Value SingleDoc) : GlobalStore × Except Value Unit :=
  let g0 := updateModule g self (fun st => SET_STATUS st Status.LOADING)
  match outcome with
  | .ok results =>
      let g1 := updateModule g0 self fun st =>
        STORE_META (STORE_RECORD (SET_STATUS st Status.SUCCESS) results.data) results.meta
      (storeIncluded g1 (.one results.data) results.included, .ok ())
  | .error e => (handleError g0 self e, .error e)

/-- Action `loadWhere` (lines 227-242); `params` is the full action
parameter object (its `filter` and `options` members feed the transport
call, and the whole object keys the filter-index entry). -/
def loadWhere (g : GlobalStore) (self : String) (params : List (String × Value))
    (outcome : Except Value CollectionDoc) : GlobalStore × Except Value Unit :=
  let g0 := updateModule g self (fun st => SET_STATUS st Status.LOADING)
  match outcome with
  | .ok results =>
      let matchedIds := results.data.map (fun r => r.id)
      let g1 := updateModule g0 self fun st =>
        STORE_META
          (STORE_FILTERED (STORE_RECORDS (SET_STATUS st Status.SUCCESS) results.data)
            matchedIds params)
          results.meta
      (storeIncluded g1 (.many results.data) results.included, .ok ())
  | .error e => (handleError g0 self e, .error e)

/-- Action `loadPage` (lines 244-257). -/
def loadPage (g : GlobalStore) (self : String)
    (outcome : Except Value CollectionDoc) : GlobalStore × Except Value Unit :=
  let g0 := updateModule g self (fun st => SET_STATUS st Status.LOADING)
  match outcome with
  | .ok response =>
      let g1 := updateModule g0 self fun st =>
        SET_LINKS
          (STORE_META (STORE_PAGE (STORE_RECORDS (SET_STATUS st Status.SUCCESS) response.data)
            response.data) response.meta)
          response.links
      (storeIncluded g1 (.many response.data) response.included, .ok ())
  | .error e => (handleError g0 self e, .error e)

/-- Action `loadRelated` (lines 285-312): `relationship` defaults to the
module's resource name, and `paramsToStore` spreads the incoming params
with the defaulted relationship filled in; on success the related records
are upserted and a relationship-index entry is committed on this module. -/
def loadRelated (g : GlobalStore) (self : String) (params : RelParams)
    (outcome : Except Value RelatedDoc) : GlobalStore × Except Value Unit :=
  let g0 := updateModule g self (fun st => SET_STATUS st Status.LOADING)
  let paramsToStore : RelParams :=
    { params with relationship := some (params.relationship.getD self) }
  match outcome with
  | .ok results =>
      let g1 := updateModule g0 self fun st =>
        match results.data with
        | .many relatedRecords =>
            STORE_META
              (STORE_RELATED self (STORE_RECORDS (SET_STATUS st Status.SUCCESS) relatedRecords)
                (.many (relatedRecords.map (fun r => r.id))) paramsToStore)
              results.meta
        | .one record =>
            STORE_META
              (STORE_RELATED self (STORE_RECORDS (SET_STATUS st Status.SUCCESS) [record])
                (.one record.id) paramsToStore)
              results.meta
      (storeIncluded g1 results.data results.included, .ok ())
  | .error e => (handleError g0 self e, .error e)

/-- Action `create` (lines 314-319): all mutation happens in the success
continuation; a rejected transport call leaves the state untouched and
propagates the rejection. -/
def create (g : GlobalStore) (self : String)
    (outcome : Except Value SingleDoc) : GlobalStore × Except Value Unit :=
  match outcome with
  | .ok result =>
      (updateModule g self
        (fun st => STORE_LAST_CREATED (STORE_RECORD st result.data) result.data), .ok ())
  | .error e => (g, .error e)

/-- One iteration of the "remove old relationships" loop of `update`
(lines 326-344): dispatch `storeRelated` with `relatedIds: null` to the
module of the old relationship's target type. -/
def updateRemoveOldRel (oldRecord : RRecord) (g : GlobalStore)
    (entry : String × RelationshipObject) : GlobalStore :=
  dispatchStoreRelated g (getRelationshipType entry.2) .null
    { parent := some (recordIdentifier oldRecord), relationship := some entry.1 }

/-- One iteration of the "set new relationships" loop of `update`
(lines 350-380): a relationship is (re)stored when its data is a non-empty
array (`isNonEmptyArray`) or an identifier with truthy `type` and `id`
(`isObject`); otherwise it is skipped. -/
def updateStoreNewRel (record : RRecord) (g : GlobalStore)
    (entry : String × RelationshipObject) : GlobalStore :=
  let params : RelParams :=
    { parent := some (recordIdentifier record), relationship := some entry.1 }
  match entry.2.data with
  | .many (rid :: rids) =>
      dispatchStoreRelated g (getRelationshipType entry.2)
        (.many ((rid :: rids).map (fun r => r.id))) params
  | .one rid =>
      if rid.type ≠ "" ∧ rid.id ≠ "" then
        dispatchStoreRelated g (getRelationshipType entry.2) (.one rid.id) params
      else g
  | _ => g

/-- Action `update` (lines 321-382): on success, look up the old cached
version by id, dispatch a `relatedIds: null` overwrite for each of its
relationships, commit the given record (client-optimistic — the server
response is ignored), then dispatch a `storeRelated` for each non-empty
relationship of the new record.  On rejection the state is untouched. -/
def update (g : GlobalStore) (self : String) (record : RRecord)
    (outcome : Except Value Unit) : GlobalStore × Except Value Unit :=
  match outcome with
  | .ok _ =>
      let oldRecord := (lookupModule g self).bind fun st =>
        st.records.find? (fun r => r.id = record.id)
      let g1 := match oldRecord with
        | some old =>
            match old.relationships with
            | some rels => rels.foldl (updateRemoveOldRel old) g
            | none => g
        | none => g
      let g2 := updateModule g1 self (fun st => STORE_RECORD st record)
      let g3 := match record.relationships with
        | some rels => rels.foldl (updateStoreNewRel record) g2
        | none => g2
      (g3, .ok ())
  | .error e => (g, .error e)

/-- Action `delete` (lines 384-388). -/
def deleteAction (g : GlobalStore) (self : String) (record : RRecord)
    (outcome : Except Value Unit) : GlobalStore × Except Value Unit :=
  match outcome with
  | .ok _ => (updateModule g self (fun st => REMOVE_RECORD st record), .ok ())
  | .error e => (g, .error e)

/-- Action `resetState` (lines 405-407). -/
def resetState (g : GlobalStore) (self : String) : GlobalStore :=
  updateModule g self RESET_STATE

/-! ### Concrete example fixtures used by witnesses and counterexamples -/

/-- A widget record with id 27. -/
def widget27 : RRecord := { type := "widgets", id := "27" }

/-- A widget record with id 42. -/
def widget42 : RRecord := { type := "widgets", id := "42" }

/-- A module state holding widgets 27 and 42 and a `purchased-widgets`
relationship of user 42 pointing at ids 27, 42 and the dangling 404. -/
def roundTripState : ModuleState :=
  { initialState with
    records := [widget27, widget42],
    related := [{ parent := some ⟨"users", "42"⟩, relationship := "purchased-widgets",
                  relatedIds := .many ["27", "42", "404"] }] }

/-- `{id:'1', attributes:{title:'A'}}` from the spec's merge example. -/
def widgetTitleA : RRecord :=
  { type := "widgets", id := "1", attributes := some (.obj [("title", .str "A")]) }

/-- `{id:'1', attributes:{title:'B'}}` from the spec's merge example. -/
def widgetTitleB : RRecord :=
  { type := "widgets", id := "1", attributes := some (.obj [("title", .str "B")]) }

/-- A post whose `author` to-one relationship has explicitly null data. -/
def postNullAuthor : RRecord :=
  { type := "posts", id := "1", relationships := some [("author", ⟨.null⟩)] }

/-- An included person record. -/
def person9 : RRecord := { type := "people", id := "9" }

/-- A two-module registry with empty `posts` and `people` modules. -/
def postsPeopleStore : GlobalStore :=
  [("posts", initialState), ("people", initialState)]

/-- A `people` module whose index already holds a nulled-out entry (as the
`update` action records them). -/
def peopleWithNullEntry : ModuleState :=
  { initialState with
    related := [{ parent := some ⟨"posts", "1"⟩, relationship := "author",
                  relatedIds := .null }] }

/-- Restaurant record 2. -/
def restaurant2 : RRecord := { type := "restaurants", id := "2" }

/-- Restaurant record 3. -/
def restaurant3 : RRecord := { type := "restaurants", id := "3" }

/-- The cached dish, whose `restaurant` relationship points at id 2. -/
def dishOld : RRecord :=
  { type := "dishes", id := "5",
    relationships := some [("restaurant", ⟨.one ⟨"restaurants", "2"⟩⟩)] }

/-- The updated dish, whose `restaurant` relationship points at id 3. -/
def dishNew : RRecord :=
  { type := "dishes", id := "5",
    relationships := some [("restaurant", ⟨.one ⟨"restaurants", "3"⟩⟩)] }

/-- The registry for the update-delta scenario: a `dishes` module caching
the old dish, and a `restaurants` module caching restaurants 2 and 3 plus
the old relationship entry. -/
def updateDeltaStore : GlobalStore :=
  [("dishes", { initialState with records := [dishOld] }),
   ("restaurants",
    { initialState with
      records := [restaurant2, restaurant3],
      related := [{ parent := some ⟨"dishes", "5"⟩, relationship := "restaurant",
                    relatedIds := .one "2" }] })]

/-- Widget records 1, 2, 3 for the replaceAll-eviction example. -/
def widget1 : RRecord := { type := "widgets", id := "1" }

/-- See `widget1`. -/
def widget2 : RRecord := { type := "widgets", id := "2" }

/-- See `widget1`. -/
def widget3 : RRecord := { type := "widgets", id := "3" }

/-- A one-module registry with an empty `widgets` module. -/
def widgetsStore : GlobalStore := [("widgets", initialState)]

/-- A module state with one filter-index entry whose `matchedIds` contains
a dangling id `'404'` next to the resolvable `'1'`. -/
def filteredState : ModuleState :=
  { initialState with
    records := [widget1],
    filtered := [{ params := [("filter", .obj [("size", .str "large")])],
                   matchedIds := ["1", "404"] }] }

/-- The registry after a first `loadAll` returning widgets 1 and 2. -/
def afterFirstLoadAll : GlobalStore :=
  (loadAll widgetsStore "widgets" (.ok { data := [widget1, widget2] })).1

/-- The nulled-out relationship entry recorded (by `update`) for the
author of post 1. -/
def nullAuthorEntry : RelEntry :=
  { parent := some ⟨"posts", "1"⟩, relationship := "author", relatedIds := .null }

/-- A one-module registry whose `people` module already holds
`nullAuthorEntry`. -/
def peopleStoreWithNullEntry : GlobalStore := [("people", peopleWithNullEntry)]

/-- The condition under which `update`'s "set new relationships" loop
stores a relationship (lines 354-358): `isNonEmptyArray || isObject`,
i.e. a non-empty array, or a to-one identifier with truthy `type` and
`id`. -/
def storedByUpdate (relationship : RelationshipObject) : Bool :=
  match relationship.data with
  | .many (_ :: _) => true
  | .one rid => rid.type ≠ "" && rid.id ≠ ""
  | _ => false

/-- A module is registered under `t` in the registry. -/
@[reducible] def ModuleRegistered (g : GlobalStore) (t : String) : Prop :=
  (lookupModule g t).isSome

/-- The module registered under `t` holds a relationship-index entry
matching key `k` (as the first `matches` hit, which is what both
`STORE_RELATED` and the `related` getter consult) whose `relatedIds` is
`ids`. -/
def EntryAtKey (g : GlobalStore) (t : String) (k : RelKey) (ids : RelatedIds) : Prop :=
  ∃ stT e, lookupModule g t = some stT ∧
    stT.related.find? (relMatches k) = some e ∧ e.relatedIds = ids

/-- The cached dish for the general update-delta witness: a `restaurant`
to-one pointing at id 2 and an `old-tags` to-many pointing at tag 7. -/
def dishOldRich : RRecord :=
  { type := "dishes", id := "5",
    relationships := some
      [("restaurant", ⟨.one ⟨"restaurants", "2"⟩⟩),
       ("old-tags", ⟨.many [⟨"tags", "7"⟩]⟩)] }

/-- The updated dish for the general update-delta witness: `restaurant`
moved to id 3, `old-tags` dropped, and a new `tags` to-many added. -/
def dishNewRich : RRecord :=
  { type := "dishes", id := "5",
    relationships := some
      [("restaurant", ⟨.one ⟨"restaurants", "3"⟩⟩),
       ("tags", ⟨.many [⟨"tags", "7"⟩, ⟨"tags", "8"⟩]⟩)] }

/-- The registry for the general update-delta witness: `dishes` caching
the old dish, `restaurants` caching ids 2 and 3 plus the stale
relationship entry, and an empty `tags` module. -/
def updateRichStore : GlobalStore :=
  [("dishes", { initialState with records := [dishOldRich] }),
   ("restaurants",
    { initialState with
      records := [restaurant2, restaurant3],
      related := [{ parent := some ⟨"dishes", "5"⟩, relationship := "restaurant",
                    relatedIds := .one "2" }] }),
   ("tags", initialState)]

/-! ### General lemmas about the registry and the index primitives -/

/-- Looking up a key under a cons registry entry. -/
theorem lookupModule_cons (k : String) (st : ModuleState) (rest : GlobalStore) (t : String) :
    lookupModule ((k, st) :: rest) t = if k = t then some st else lookupModule rest t := by
  by_cases h : k = t <;> simp [lookupModule, List.find?, h]

/-- `updateModule` transforms exactly the module registered under the
updated name and leaves every other lookup unchanged. -/
theorem lookupModule_updateModule (g : GlobalStore) (n t : String)
    (f : ModuleState → ModuleState) :
    lookupModule (updateModule g n f) t =
      if t = n then (lookupModule g t).map f else lookupModule g t := by
  induction g with
  | nil => by_cases h : t = n <;> simp [lookupModule, updateModule, h]
  | cons p rest ih =>
    obtain ⟨k, st⟩ := p
    have hupd : updateModule ((k, st) :: rest) n f =
        (if k = n then (k, f st) else (k, st)) :: updateModule rest n f := by
      simp [updateModule]
    rw [hupd]
    by_cases hkn : k = n
    · subst hkn
      by_cases hkt : k = t
      · subst hkt
        simp [lookupModule_cons]
      · have htn : ¬ t = k := fun h => hkt h.symm
        simp [lookupModule_cons, hkt, htn, ih]
    · by_cases hkt : k = t
      · subst hkt
        simp [lookupModule_cons, hkn]
      · simp [lookupModule_cons, hkn, hkt, ih]

/-- The entry written by `storeRelEntry` is found again under its own key,
carrying the newly written ids (find-or-push plus in-place overwrite). -/
theorem find?_storeRelEntry (l : List RelEntry) (k : RelKey) (ids : RelatedIds) :
    ∃ e, (storeRelEntry l k ids).find? (relMatches k) = some e ∧
      e.relatedIds = ids := by
  induction l with
  | nil =>
    refine ⟨{ parent := k.parent, relationship := k.relationship, relatedIds := ids },
      ?_, rfl⟩
    simp [storeRelEntry, List.find?, relMatches]
  | cons hd tl ih =>
    by_cases h : relMatches k hd
    · refine ⟨{ hd with relatedIds := ids }, ?_, rfl⟩
      have h' : relMatches k { hd with relatedIds := ids } = true := by
        simpa [relMatches] using h
      simp [storeRelEntry, h, List.find?, h']
    · obtain ⟨e, he, hids⟩ := ih
      refine ⟨e, ?_, hids⟩
      simp [storeRelEntry, h, List.find?, he]

/-- Every entry of `storeRelEntry l k ids` either was already in `l` or
carries the freshly written `relatedIds`. -/
theorem mem_storeRelEntry (l : List RelEntry) (k : RelKey) (ids : RelatedIds) :
    ∀ e ∈ storeRelEntry l k ids, e ∈ l ∨ e.relatedIds = ids := by
  induction l with
  | nil =>
    intro e he
    simp [storeRelEntry] at he
    subst he
    exact Or.inr rfl
  | cons hd tl ih =>
    intro e he
    by_cases h : relMatches k hd
    · simp [storeRelEntry, h] at he
      rcases he with he | he
      · subst he; exact Or.inr rfl
      · exact Or.inl (List.mem_cons_of_mem _ he)
    · simp [storeRelEntry, h] at he
      rcases he with he | he
      · subst he; exact Or.inl (List.mem_cons_self _ _)
      · rcases ih e he with h' | h'
        · exact Or.inl (List.mem_cons_of_mem _ h')
        · exact Or.inr h'

/-- After `storeRecord`, looking up the stored id finds the merge of the
previously found record with the new one. -/
theorem find?_storeRecord_merge (l : List RRecord) (r old : RRecord)
    (h : l.find? (fun x => x.id = r.id) = some old) :
    (storeRecord l r).find? (fun x => x.id = r.id) = some (mergeRecord old r) := by
  induction l with
  | nil => simp [List.find?] at h
  | cons hd tl ih =>
    by_cases hid : hd.id = r.id
    · have hfind : hd = old := by
        simp [List.find?, hid] at h
        exact h
      subst hfind
      have : (mergeRecord hd r).id = r.id := rfl
      simp [storeRecord, hid, List.find?, this]
    · simp [List.find?, hid] at h
      simp [storeRecord, hid, List.find?, ih h]

/-- The merge always takes the new record's id. -/
theorem mergeRecord_id (old r : RRecord) : (mergeRecord old r).id = r.id := rfl

/-- Merging a record onto itself changes nothing. -/
theorem mergeRecord_self (r : RRecord) : mergeRecord r r = r := by
  obtain ⟨ty, i, a, rl⟩ := r
  cases a <;> cases rl <;> simp [mergeRecord]

/-- Re-merging the same new record is absorbed by the first merge. -/
theorem mergeRecord_absorb (old r : RRecord) :
    mergeRecord (mergeRecord old r) r = mergeRecord old r := by
  obtain ⟨ty, i, a, rl⟩ := r
  cases a <;> cases rl <;> simp [mergeRecord]

/-- A record with a fresh id is appended at the end. -/
theorem storeRecord_fresh (l : List RRecord) (r : RRecord)
    (h : ∀ x ∈ l, x.id ≠ r.id) : storeRecord l r = l ++ [r] := by
  induction l with
  | nil => rfl
  | cons hd tl ih =>
    have hhd : ¬ hd.id = r.id := h hd (List.mem_cons_self _ _)
    simp only [storeRecord, if_neg hhd, List.cons_append, List.cons.injEq, true_and]
    exact ih (fun x hx => h x (List.mem_cons_of_mem _ hx))

/-- Storing a record whose id is already present does not change the
store's length (the merge happens in place). -/
theorem storeRecord_length_of_found (l : List RRecord) (r old : RRecord)
    (h : l.find? (fun x => x.id = r.id) = some old) :
    (storeRecord l r).length = l.length := by
  induction l with
  | nil => simp [List.find?] at h
  | cons hd tl ih =>
    by_cases hid : hd.id = r.id
    · simp [storeRecord, hid]
    · simp [List.find?, hid] at h
      simp [storeRecord, hid, ih h]

/-- After `storeRecord`, the store holds at least one and — when the store
was deduplicated — exactly one record with the stored id:  the number of
records carrying that id is the old count clamped up to one. -/
theorem storeRecord_countP (l : List RRecord) (r : RRecord) :
    (storeRecord l r).countP (fun x => x.id = r.id) =
      max 1 (l.countP (fun x => x.id = r.id)) := by
  induction l with
  | nil => simp [storeRecord, List.countP_cons]
  | cons hd tl ih =>
    by_cases hid : hd.id = r.id
    · have hm : (mergeRecord hd r).id = r.id := rfl
      simp [storeRecord, hid, List.countP_cons, hm]
    · simp [storeRecord, hid, List.countP_cons, ih]

/-- Upserting the same record twice equals upserting it once. -/
theorem storeRecord_idem (l : List RRecord) (r : RRecord) :
    storeRecord (storeRecord l r) r = storeRecord l r := by
  induction l with
  | nil =>
    show storeRecord [r] r = [r]
    simp [storeRecord, mergeRecord_self]
  | cons hd tl ih =>
    by_cases hid : hd.id = r.id
    · have hm : (mergeRecord hd r).id = r.id := rfl
      simp [storeRecord, hid, hm, mergeRecord_absorb]
    · simp [storeRecord, hid, ih]

/-- `dispatchStoreRelated` touches only relationship indexes: the records
of every module are untouched. -/
theorem records_dispatchStoreRelated (g : GlobalStore) (ty : Option String)
    (ids : RelatedIds) (prms : RelParams) (t : String) :
    (lookupModule (dispatchStoreRelated g ty ids prms) t).map (fun st => st.records) =
      (lookupModule g t).map (fun st => st.records) := by
  cases ty with
  | none => rfl
  | some t' =>
    rw [show dispatchStoreRelated g (some t') ids prms =
      updateModule g t' (fun st => STORE_RELATED t' st ids prms) from rfl]
    rw [lookupModule_updateModule]
    by_cases h : t = t'
    · rw [if_pos h, h]
      cases lookupModule g t' <;> rfl
    · rw [if_neg h]

/-- Folding any records-preserving step preserves every module's records. -/
theorem records_foldl {α : Type} (step : GlobalStore → α → GlobalStore)
    (hstep : ∀ g x t, (lookupModule (step g x) t).map (fun st => st.records) =
      (lookupModule g t).map (fun st => st.records)) :
    ∀ (l : List α) (g : GlobalStore) (t : String),
      (lookupModule (l.foldl step g) t).map (fun st => st.records) =
        (lookupModule g t).map (fun st => st.records) := by
  intro l
  induction l with
  | nil => intro g t; rfl
  | cons y xs ih =>
    intro g t
    show (lookupModule (xs.foldl step (step g y)) t).map _ = _
    rw [ih (step g y) t, hstep g y t]

/-- The whole "remove old relationships" pass of `update` preserves every
module's records. -/
theorem records_updateRemoveOldRels (old : RRecord)
    (rels : List (String × RelationshipObject)) (g : GlobalStore) (t : String) :
    (lookupModule (rels.foldl (updateRemoveOldRel old) g) t).map (fun st => st.records) =
      (lookupModule g t).map (fun st => st.records) :=
  records_foldl (updateRemoveOldRel old)
    (fun g _x t => records_dispatchStoreRelated g _ _ _ t) rels g t

/-! ### Which record ids can appear after `storeIncluded` -/

/-- Every record of `storeRecord l r` keeps an id that was already in `l`
or carries the stored record's id. -/
theorem ids_storeRecord (l : List RRecord) (r : RRecord) :
    ∀ x ∈ storeRecord l r, x.id ∈ l.map (fun y => y.id) ∨ x.id = r.id := by
  induction l with
  | nil =>
    intro x hx
    simp [storeRecord] at hx
    subst hx
    exact Or.inr rfl
  | cons hd tl ih =>
    intro x hx
    by_cases hid : hd.id = r.id
    · simp [storeRecord, hid] at hx
      rcases hx with hx | hx
      · subst hx; exact Or.inr rfl
      · exact Or.inl (List.mem_cons_of_mem _ (List.mem_map_of_mem _ hx))
    · simp [storeRecord, hid] at hx
      rcases hx with hx | hx
      · subst hx; exact Or.inl (List.mem_cons_self _ _)
      · rcases ih x hx with h | h
        · exact Or.inl (List.mem_cons_of_mem _ h)
        · exact Or.inr h

/-- `g'` introduces no record ids over `g` beyond `newIds`: every record
in a module of `g'` has an id that the same module already had in `g`, or
an id from `newIds`. -/
def AddsOnlyIds (g g' : GlobalStore) (newIds : List String) : Prop :=
  ∀ t st' x, lookupModule g' t = some st' → x ∈ st'.records →
    (∃ st, lookupModule g t = some st ∧ x.id ∈ st.records.map (fun r => r.id)) ∨
      x.id ∈ newIds

theorem addsOnlyIds_refl (g : GlobalStore) (newIds : List String) :
    AddsOnlyIds g g newIds :=
  fun _t st' _x h1 h2 => Or.inl ⟨st', h1, List.mem_map_of_mem _ h2⟩

theorem addsOnlyIds_trans {a b c : GlobalStore} {newIds : List String}
    (hab : AddsOnlyIds a b newIds) (hbc : AddsOnlyIds b c newIds) :
    AddsOnlyIds a c newIds := by
  intro t st' x h1 h2
  rcases hbc t st' x h1 h2 with ⟨st, hst, hid⟩ | h
  · obtain ⟨y, hy, hyid⟩ := List.mem_map.1 hid
    rcases hab t st y hst hy with ⟨st0, hst0, hid0⟩ | h0
    · exact Or.inl ⟨st0, hst0, by rw [← hyid]; exact hid0⟩
    · exact Or.inr (by rw [← hyid]; exact h0)
  · exact Or.inr h

/-- A registry step that preserves every module's records adds no ids. -/
theorem addsOnlyIds_of_records_preserved (g g' : GlobalStore) (newIds : List String)
    (h : ∀ t, (lookupModule g' t).map (fun st => st.records) =
      (lookupModule g t).map (fun st => st.records)) :
    AddsOnlyIds g g' newIds := by
  intro t st' x h1 h2
  have := h t
  rw [h1] at this
  cases hg : lookupModule g t with
  | none => rw [hg] at this; exact Option.noConfusion this
  | some st =>
    rw [hg] at this
    have hrec : st'.records = st.records := by injection this
    exact Or.inl ⟨st, rfl, List.mem_map_of_mem _ (hrec ▸ h2)⟩

/-- Dispatching `storeRecord` for a record adds at most that record's id. -/
theorem addsOnlyIds_dispatchStoreRecord (g : GlobalStore) (ty : String) (r : RRecord)
    (newIds : List String) (hr : r.id ∈ newIds) :
    AddsOnlyIds g (dispatchStoreRecord g ty r) newIds := by
  intro t st' x h1 h2
  rw [show dispatchStoreRecord g ty r =
    updateModule g ty (fun st => STORE_RECORD st r) from rfl] at h1
  rw [lookupModule_updateModule] at h1
  by_cases h : t = ty
  · rw [if_pos h] at h1
    cases hg : lookupModule g ty with
    | none => rw [h, hg] at h1; exact Option.noConfusion h1
    | some st =>
      rw [h, hg] at h1
      obtain rfl : STORE_RECORD st r = st' := by injection h1
      rcases ids_storeRecord st.records r x h2 with hid | hid
      · exact Or.inl ⟨st, by rw [h]; exact hg, hid⟩
      · exact Or.inr (hid ▸ hr)
  · rw [if_neg h] at h1
    exact Or.inl ⟨st', h1, List.mem_map_of_mem _ h2⟩

/-- Folding a step that adds only ids of the folded elements. -/
theorem addsOnlyIds_foldl {α : Type} (step : GlobalStore → α → GlobalStore)
    (newIds : List String) :
    ∀ (l : List α), (∀ x ∈ l, ∀ g0, AddsOnlyIds g0 (step g0 x) newIds) →
      ∀ g, AddsOnlyIds g (l.foldl step g) newIds := by
  intro l
  induction l with
  | nil => intro _ g; exact addsOnlyIds_refl g newIds
  | cons y ys ih =>
    intro h g
    exact addsOnlyIds_trans (h y (List.mem_cons_self _ _) g)
      (ih (fun x hx => h x (List.mem_cons_of_mem _ hx)) (step g y))

/-- One relationship iteration of `storeIncluded` preserves records. -/
theorem records_storeIncludedRel (pr : RRecord) (g : GlobalStore)
    (entry : String × RelationshipObject) (t : String) :
    (lookupModule (storeIncludedRel pr g entry) t).map (fun st => st.records) =
      (lookupModule g t).map (fun st => st.records) := by
  unfold storeIncludedRel
  by_cases h : relSkip entry.2
  · rw [if_pos h]
  · rw [if_neg h]
    exact records_dispatchStoreRelated g _ _ _ t

/-- The relationship pass for one scanned record preserves records. -/
theorem records_storeIncludedRecordRels (g : GlobalStore) (pr : RRecord) (t : String) :
    (lookupModule (storeIncludedRecordRels g pr) t).map (fun st => st.records) =
      (lookupModule g t).map (fun st => st.records) := by
  unfold storeIncludedRecordRels
  cases pr.relationships with
  | none => rfl
  | some rels =>
    exact records_foldl (storeIncludedRel pr)
      (fun g x t => records_storeIncludedRel pr g x t) rels g t

/-- `storeIncluded` adds no record ids beyond those of the `included`
records themselves. -/
theorem addsOnlyIds_storeIncluded (g : GlobalStore) (data : PrimaryData)
    (inc : List RRecord) :
    AddsOnlyIds g (storeIncluded g data (some inc)) (inc.map (fun r => r.id)) := by
  show AddsOnlyIds g
    ((scannedRecords data inc).foldl storeIncludedRecordRels
      (inc.foldl (fun g r => dispatchStoreRecord g r.type r) g)) _
  exact addsOnlyIds_trans
    (addsOnlyIds_foldl (fun g r => dispatchStoreRecord g r.type r)
      (inc.map (fun r => r.id)) inc
      (fun r hr g0 => addsOnlyIds_dispatchStoreRecord g0 r.type r _
        (List.mem_map_of_mem _ hr))
      g)
    (addsOnlyIds_of_records_preserved _ _ _
      (fun t => records_foldl storeIncludedRecordRels
        (fun g x t => records_storeIncludedRecordRels g x t) (scannedRecords data inc) _ t))

/-! ### Null-entry preservation: `storeIncluded` never writes a
`relatedIds = null` entry -/

/-- `g'` adds no nulled relationship entry over `g`: every entry with
`relatedIds = null` found in a module of `g'` was already present in that
module in `g`. -/
def PreservesNullEntries (g g' : GlobalStore) : Prop :=
  ∀ t st' e, lookupModule g' t = some st' → e ∈ st'.related →
    e.relatedIds = RelatedIds.null →
    ∃ st, lookupModule g t = some st ∧ e ∈ st.related

theorem preservesNullEntries_refl (g : GlobalStore) : PreservesNullEntries g g :=
  fun _t st' _e h1 h2 _ => ⟨st', h1, h2⟩

theorem preservesNullEntries_trans {a b c : GlobalStore}
    (hab : PreservesNullEntries a b) (hbc : PreservesNullEntries b c) :
    PreservesNullEntries a c := by
  intro t st' e h1 h2 h3
  obtain ⟨st, hst, hmem⟩ := hbc t st' e h1 h2 h3
  exact hab t st e hst hmem h3

/-- Dispatching a `storeRelated` with non-null ids adds no null entry. -/
theorem preservesNullEntries_dispatchStoreRelated (g : GlobalStore) (ty : Option String)
    (ids : RelatedIds) (prms : RelParams) (hids : ids ≠ RelatedIds.null) :
    PreservesNullEntries g (dispatchStoreRelated g ty ids prms) := by
  cases ty with
  | none => exact preservesNullEntries_refl g
  | some t' =>
    intro t st' e h1 h2 h3
    rw [show dispatchStoreRelated g (some t') ids prms =
      updateModule g t' (fun st => STORE_RELATED t' st ids prms) from rfl] at h1
    rw [lookupModule_updateModule] at h1
    by_cases h : t = t'
    · rw [if_pos h] at h1
      cases hg : lookupModule g t' with
      | none => rw [h, hg] at h1; exact Option.noConfusion h1
      | some st =>
        rw [h, hg] at h1
        obtain rfl : STORE_RELATED t' st ids prms = st' := by
          injection h1
        have hmem : e ∈ storeRelEntry st.related (getRelationshipIndex t' prms) ids := h2
        rcases mem_storeRelEntry _ _ _ e hmem with hin | hids'
        · exact ⟨st, by rw [h]; exact hg, hin⟩
        · exact absurd (hids'.symm.trans h3) hids
    · rw [if_neg h] at h1
      exact ⟨st', h1, h2⟩

/-- Dispatching a `storeRecord` touches no relationship index at all. -/
theorem preservesNullEntries_dispatchStoreRecord (g : GlobalStore) (ty : String)
    (r : RRecord) : PreservesNullEntries g (dispatchStoreRecord g ty r) := by
  intro t st' e h1 h2 h3
  rw [show dispatchStoreRecord g ty r =
    updateModule g ty (fun st => STORE_RECORD st r) from rfl] at h1
  rw [lookupModule_updateModule] at h1
  by_cases h : t = ty
  · rw [if_pos h] at h1
    cases hg : lookupModule g ty with
    | none => rw [h, hg] at h1; exact Option.noConfusion h1
    | some st =>
      rw [h, hg] at h1
      obtain rfl : STORE_RECORD st r = st' := by injection h1
      exact ⟨st, by rw [h]; exact hg, h2⟩
  · rw [if_neg h] at h1
    exact ⟨st', h1, h2⟩

/-- Folding any null-preserving step preserves null entries. -/
theorem preservesNullEntries_foldl {α : Type} (step : GlobalStore → α → GlobalStore)
    (hstep : ∀ g x, PreservesNullEntries g (step g x)) :
    ∀ (l : List α) (g : GlobalStore), PreservesNullEntries g (l.foldl step g) := by
  intro l
  induction l with
  | nil => intro g; exact preservesNullEntries_refl g
  | cons x xs ih =>
    intro g
    exact preservesNullEntries_trans (hstep g x) (ih (step g x))

/-- A non-skipped relationship extracts non-null related ids. -/
theorem extractRelatedIds_ne_null (ro : RelationshipObject)
    (h : relSkip ro = false) : extractRelatedIds ro ≠ RelatedIds.null := by
  cases hd : ro.data with
  | null => simp [relSkip, hd] at h
  | one rid => simp [extractRelatedIds, hd]
  | many rids => simp [extractRelatedIds, hd]

/-- One relationship iteration of `storeIncluded` adds no null entry. -/
theorem preservesNullEntries_storeIncludedRel (pr : RRecord) (g : GlobalStore)
    (entry : String × RelationshipObject) :
    PreservesNullEntries g (storeIncludedRel pr g entry) := by
  unfold storeIncludedRel
  by_cases h : relSkip entry.2
  · rw [if_pos h]; exact preservesNullEntries_refl g
  · rw [if_neg h]
    exact preservesNullEntries_dispatchStoreRelated g _ _ _
      (extractRelatedIds_ne_null entry.2 (by simpa using h))

/-- The whole relationship pass for one scanned record adds no null entry. -/
theorem preservesNullEntries_storeIncludedRecordRels (g : GlobalStore) (pr : RRecord) :
    PreservesNullEntries g (storeIncludedRecordRels g pr) := by
  unfold storeIncludedRecordRels
  cases pr.relationships with
  | none => exact preservesNullEntries_refl g
  | some rels =>
    exact preservesNullEntries_foldl (storeIncludedRel pr)
      (preservesNullEntries_storeIncludedRel pr) rels g

/-! ### Key-level lemmas for the update action's relationship passes -/

/-- Overwriting `relatedIds` does not change which keys an entry matches. -/
theorem relMatches_set_relatedIds (k : RelKey) (e : RelEntry) (ids : RelatedIds) :
    relMatches k { e with relatedIds := ids } = relMatches k e := rfl

/-- A `storeRelEntry` write under a key with a different relationship name
leaves the first match of key `k` untouched: no entry can match two keys
that disagree on the relationship name. -/
theorem find?_storeRelEntry_disjoint (l : List RelEntry) (k k' : RelKey)
    (ids' : RelatedIds) (hne : k.relationship ≠ k'.relationship) :
    (storeRelEntry l k' ids').find? (relMatches k) = l.find? (relMatches k) := by
  induction l with
  | nil =>
    have hmiss : relMatches k
        { parent := k'.parent, relationship := k'.relationship, relatedIds := ids' } =
        false := by
      simp [relMatches]
      intro _
      exact hne
    simp [storeRelEntry, List.find?, hmiss]
  | cons hd tl ih =>
    by_cases h' : relMatches k' hd
    · have hrel' : k'.relationship = hd.relationship := by
        have h'' := h'
        simp [relMatches] at h''
        exact h''.2
      have hk : relMatches k hd = false := by
        rw [Bool.eq_false_iff]
        intro hcon
        have h2 : k.relationship = hd.relationship := by
          simp [relMatches] at hcon
          exact hcon.2
        exact hne (h2.trans hrel'.symm)
      simp [storeRelEntry, h', List.find?, relMatches_set_relatedIds, hk]
    · simp [storeRelEntry, h', List.find?]
      by_cases hk : relMatches k hd <;> simp [hk, ih]

/-- Writing `null` related ids anywhere preserves "the first match of key
`k` carries null ids": the write either replaces that very entry with
another null one or does not affect it. -/
theorem find?_storeRelEntry_null (l : List RelEntry) (k k' : RelKey)
    (h : ∃ e, l.find? (relMatches k) = some e ∧ e.relatedIds = RelatedIds.null) :
    ∃ e', (storeRelEntry l k' RelatedIds.null).find? (relMatches k) = some e' ∧
      e'.relatedIds = RelatedIds.null := by
  induction l with
  | nil =>
    obtain ⟨e, he, -⟩ := h
    simp [List.find?] at he
  | cons hd tl ih =>
    obtain ⟨e, he, hnull⟩ := h
    by_cases h' : relMatches k' hd
    · by_cases hk : relMatches k hd
      · refine ⟨{ hd with relatedIds := RelatedIds.null }, ?_, rfl⟩
        have : relMatches k { hd with relatedIds := RelatedIds.null } = true := by
          rw [relMatches_set_relatedIds]; exact hk
        simp [storeRelEntry, h', List.find?, this]
      · have : relMatches k { hd with relatedIds := RelatedIds.null } = false := by
          rw [relMatches_set_relatedIds]; exact Bool.eq_false_iff.2 hk
        simp [List.find?, hk] at he
        refine ⟨e, ?_, hnull⟩
        simp [storeRelEntry, h', List.find?, this, he]
    · by_cases hk : relMatches k hd
      · simp [List.find?, hk] at he
        obtain rfl : hd = e := by simpa using he
        exact ⟨hd, by simp [storeRelEntry, h', List.find?, hk], hnull⟩
      · simp [List.find?, hk] at he
        obtain ⟨e', he', hnull'⟩ := ih ⟨e, he, hnull⟩
        refine ⟨e', ?_, hnull'⟩
        simp [storeRelEntry, h', List.find?, hk, he']

/-- `updateModule` never adds or removes modules. -/
theorem registered_updateModule (g : GlobalStore) (n : String)
    (f : ModuleState → ModuleState) (t : String) (h : ModuleRegistered g t) :
    ModuleRegistered (updateModule g n f) t := by
  unfold ModuleRegistered at h ⊢
  rw [lookupModule_updateModule]
  by_cases ht : t = n
  · rw [if_pos ht]
    cases hg : lookupModule g t with
    | none => rw [hg] at h; exact absurd h (by simp)
    | some st => simp
  · rw [if_neg ht]; exact h

/-- `dispatchStoreRelated` never adds or removes modules. -/
theorem registered_dispatchStoreRelated (g : GlobalStore) (ty : Option String)
    (ids : RelatedIds) (prms : RelParams) (t : String) (h : ModuleRegistered g t) :
    ModuleRegistered (dispatchStoreRelated g ty ids prms) t := by
  cases ty with
  | none => exact h
  | some t' =>
    show ModuleRegistered (updateModule g t' (fun st => STORE_RELATED t' st ids prms)) t
    exact registered_updateModule g t' _ t h

/-- A generic preservation principle for left folds over the registry. -/
theorem foldl_pres {α : Type} (P : GlobalStore → Prop) (step : GlobalStore → α → GlobalStore) :
    ∀ (l : List α), (∀ x ∈ l, ∀ g0, P g0 → P (step g0 x)) →
      ∀ g, P g → P (l.foldl step g) := by
  intro l
  induction l with
  | nil => intro _ g hg; exact hg
  | cons y ys ih =>
    intro h g hg
    exact ih (fun x hx => h x (List.mem_cons_of_mem _ hx)) (step g y)
      (h y (List.mem_cons_self _ _) g hg)

/-- A state transition that leaves the relationship index alone preserves
any keyed entry. -/
theorem entryAtKey_updateModule_records (g : GlobalStore) (n : String)
    (f : ModuleState → ModuleState) (hf : ∀ st, (f st).related = st.related)
    (t : String) (k : RelKey) (ids : RelatedIds) (h : EntryAtKey g t k ids) :
    EntryAtKey (updateModule g n f) t k ids := by
  obtain ⟨stT, e, hlook, hfind, hids⟩ := h
  rw [show EntryAtKey (updateModule g n f) t k ids = _ from rfl]
  unfold EntryAtKey
  rw [lookupModule_updateModule]
  by_cases ht : t = n
  · rw [if_pos ht, hlook]
    exact ⟨f stT, e, rfl, by rw [hf stT]; exact hfind, hids⟩
  · rw [if_neg ht]
    exact ⟨stT, e, hlook, hfind, hids⟩

/-- A `storeRelated` dispatch under a key whose relationship name differs
from `k`'s preserves the entry at `k` exactly. -/
theorem entryAtKey_dispatch_disjoint (g : GlobalStore) (t' : String)
    (ids' : RelatedIds) (prms : RelParams) (t : String) (k : RelKey) (ids : RelatedIds)
    (hne : k.relationship ≠ (getRelationshipIndex t' prms).relationship)
    (h : EntryAtKey g t k ids) :
    EntryAtKey (dispatchStoreRelated g (some t') ids' prms) t k ids := by
  obtain ⟨stT, e, hlook, hfind, hids⟩ := h
  rw [show dispatchStoreRelated g (some t') ids' prms =
    updateModule g t' (fun st => STORE_RELATED t' st ids' prms) from rfl]
  unfold EntryAtKey
  rw [lookupModule_updateModule]
  by_cases ht : t = t'
  · rw [if_pos ht, hlook]
    refine ⟨_, e, rfl, ?_, hids⟩
    show (storeRelEntry stT.related (getRelationshipIndex t' prms) ids').find?
      (relMatches k) = some e
    rw [find?_storeRelEntry_disjoint stT.related k (getRelationshipIndex t' prms) ids' hne]
    exact hfind
  · rw [if_neg ht]
    exact ⟨stT, e, hlook, hfind, hids⟩

/-- A null `storeRelated` dispatch anywhere preserves a null entry at any
key. -/
theorem entryAtKey_null_dispatch_null (g : GlobalStore) (ty : Option String)
    (prms : RelParams) (t : String) (k : RelKey)
    (h : EntryAtKey g t k RelatedIds.null) :
    EntryAtKey (dispatchStoreRelated g ty RelatedIds.null prms) t k RelatedIds.null := by
  cases ty with
  | none => exact h
  | some t' =>
    obtain ⟨stT, e, hlook, hfind, hids⟩ := h
    rw [show dispatchStoreRelated g (some t') RelatedIds.null prms =
      updateModule g t' (fun st => STORE_RELATED t' st RelatedIds.null prms) from rfl]
    unfold EntryAtKey
    rw [lookupModule_updateModule]
    by_cases ht : t = t'
    · rw [if_pos ht, hlook]
      obtain ⟨e', hfind', hnull'⟩ :=
        find?_storeRelEntry_null stT.related k (getRelationshipIndex t' prms)
          ⟨e, hfind, hids⟩
      exact ⟨_, e', rfl, hfind', hnull'⟩
    · rw [if_neg ht]
      exact ⟨stT, e, hlook, hfind, hids⟩

/-- Dispatching `storeRelated` to a registered module establishes the
entry under the dispatched key with the dispatched ids. -/
theorem entryAtKey_establish (g : GlobalStore) (t : String) (ids : RelatedIds)
    (prms : RelParams) (hreg : ModuleRegistered g t) :
    EntryAtKey (dispatchStoreRelated g (some t) ids prms) t
      (getRelationshipIndex t prms) ids := by
  obtain ⟨stT, hlook⟩ := Option.isSome_iff_exists.1 hreg
  rw [show dispatchStoreRelated g (some t) ids prms =
    updateModule g t (fun st => STORE_RELATED t st ids prms) from rfl]
  unfold EntryAtKey
  rw [lookupModule_updateModule, if_pos rfl, hlook]
  obtain ⟨e, hfind, hids⟩ :=
    find?_storeRelEntry stT.related (getRelationshipIndex t prms) ids
  exact ⟨_, e, rfl, hfind, hids⟩

/-- One "set new relationships" step of `update` preserves every module's
records (it only ever dispatches `storeRelated`). -/
theorem records_updateStoreNewRel (record : RRecord) (g : GlobalStore)
    (entry : String × RelationshipObject) (t : String) :
    (lookupModule (updateStoreNewRel record g entry) t).map (fun st => st.records) =
      (lookupModule g t).map (fun st => st.records) := by
  obtain ⟨name', obj'⟩ := entry
  obtain ⟨d⟩ := obj'
  cases d with
  | null => rfl
  | one rid =>
    show (lookupModule (if rid.type ≠ "" ∧ rid.id ≠ "" then _ else g) t).map _ = _
    by_cases hc : rid.type ≠ "" ∧ rid.id ≠ ""
    · rw [if_pos hc]
      exact records_dispatchStoreRelated g _ _ _ t
    · rw [if_neg hc]
  | many rids =>
    cases rids with
    | nil => rfl
    | cons rid rest =>
      exact records_dispatchStoreRelated g
        (getRelationshipType ⟨RelData.many (rid :: rest)⟩)
        (RelatedIds.many ((rid :: rest).map (fun r => r.id)))
        { parent := some (recordIdentifier record), relationship := some name' } t

/-- One "remove old relationships" step preserves a null entry at any key. -/
theorem entryAtKey_null_updateRemoveOldRel (old : RRecord) (g : GlobalStore)
    (ent : String × RelationshipObject) (t : String) (k : RelKey)
    (h : EntryAtKey g t k RelatedIds.null) :
    EntryAtKey (updateRemoveOldRel old g ent) t k RelatedIds.null :=
  entryAtKey_null_dispatch_null g (getRelationshipType ent.2)
    { parent := some (recordIdentifier old), relationship := some ent.1 } t k h

/-- One "set new relationships" step for a relationship named `name'`
preserves the entry at any key whose relationship name differs. -/
theorem entryAtKey_updateStoreNewRel (record : RRecord) (g : GlobalStore)
    (name' : String) (obj' : RelationshipObject) (t : String) (k : RelKey)
    (ids : RelatedIds) (hne : k.relationship ≠ name')
    (h : EntryAtKey g t k ids) :
    EntryAtKey (updateStoreNewRel record g (name', obj')) t k ids := by
  obtain ⟨d⟩ := obj'
  cases d with
  | null => exact h
  | one rid =>
    show EntryAtKey (if rid.type ≠ "" ∧ rid.id ≠ "" then _ else g) t k ids
    by_cases hc : rid.type ≠ "" ∧ rid.id ≠ ""
    · rw [if_pos hc]
      exact entryAtKey_dispatch_disjoint g rid.type _ _ t k ids hne h
    · rw [if_neg hc]; exact h
  | many rids =>
    cases rids with
    | nil => exact h
    | cons rid rest =>
      exact entryAtKey_dispatch_disjoint g rid.type _ _ t k ids hne h

/-- "Remove old relationships" steps keep modules registered. -/
theorem registered_updateRemoveOldRel (old : RRecord) (g : GlobalStore)
    (ent : String × RelationshipObject) (t : String) (h : ModuleRegistered g t) :
    ModuleRegistered (updateRemoveOldRel old g ent) t :=
  registered_dispatchStoreRelated g (getRelationshipType ent.2) RelatedIds.null
    { parent := some (recordIdentifier old), relationship := some ent.1 } t h

/-- "Set new relationships" steps keep modules registered. -/
theorem registered_updateStoreNewRel (record : RRecord) (g : GlobalStore)
    (entry : String × RelationshipObject) (t : String) (h : ModuleRegistered g t) :
    ModuleRegistered (updateStoreNewRel record g entry) t := by
  obtain ⟨name', obj'⟩ := entry
  obtain ⟨d⟩ := obj'
  cases d with
  | null => exact h
  | one rid =>
    show ModuleRegistered (if rid.type ≠ "" ∧ rid.id ≠ "" then _ else g) t
    by_cases hc : rid.type ≠ "" ∧ rid.id ≠ ""
    · rw [if_pos hc]
      exact registered_dispatchStoreRelated g _ _ _ t h
    · rw [if_neg hc]; exact h
  | many rids =>
    cases rids with
    | nil => exact h
    | cons rid rest =>
      exact registered_dispatchStoreRelated g
        (getRelationshipType ⟨RelData.many (rid :: rest)⟩)
        (RelatedIds.many ((rid :: rest).map (fun r => r.id)))
        { parent := some (recordIdentifier record), relationship := some name' } t h

/-- A relationship passing the `isNonEmptyArray || isObject` test is
dispatched with its extracted ids under the new record's identifier. -/
theorem updateStoreNewRel_eq_dispatch (record : RRecord) (g : GlobalStore)
    (name' : String) (obj' : RelationshipObject) (hs : storedByUpdate obj' = true) :
    updateStoreNewRel record g (name', obj') =
      dispatchStoreRelated g (getRelationshipType obj') (extractRelatedIds obj')
        { parent := some (recordIdentifier record), relationship := some name' } := by
  obtain ⟨d⟩ := obj'
  cases d with
  | null => simp [storedByUpdate] at hs
  | one rid =>
    have hc : rid.type ≠ "" ∧ rid.id ≠ "" := by
      simp [storedByUpdate] at hs
      exact hs
    show (if rid.type ≠ "" ∧ rid.id ≠ "" then _ else g) = _
    rw [if_pos hc]
    rfl
  | many rids =>
    cases rids with
    | nil => simp [storedByUpdate] at hs
    | cons rid rest => rfl

/-- Splitting an association list at a key occurrence, with deduplicated
keys: the key does not recur after the occurrence. -/
theorem mem_split_nodup_keys {α : Type} (l : List (String × α)) (name : String) (x : α)
    (hmem : (name, x) ∈ l) (hnodup : (l.map Prod.fst).Nodup) :
    ∃ pre post, l = pre ++ (name, x) :: post ∧ name ∉ post.map Prod.fst := by
  obtain ⟨pre, post, rfl⟩ := List.append_of_mem hmem
  refine ⟨pre, post, rfl, ?_⟩
  have h1 : ((pre.map Prod.fst) ++ name :: (post.map Prod.fst)).Nodup := by
    simpa using hnodup
  have h2 : (name :: post.map Prod.fst).Nodup := h1.of_append_right
  exact (List.nodup_cons.1 h2).1

/-- Running `update` on a resolved transport call is exactly the
three-pass composition: null out the old cached version's relationships,
store the record, then store each (non-empty) new relationship. -/
theorem update_ok_run (g : GlobalStore) (self : String) (record old : RRecord)
    (st : ModuleState) (hmod : lookupModule g self = some st)
    (hold : st.records.find? (fun r => r.id = record.id) = some old) :
    update g self record (.ok ()) =
      ((record.relationships.getD []).foldl (updateStoreNewRel record)
        (updateModule
          ((old.relationships.getD []).foldl (updateRemoveOldRel old) g)
          self (fun st => STORE_RECORD st record)),
       .ok ()) := by
  have hb : (lookupModule g self).bind
      (fun st => st.records.find? (fun r => r.id = record.id)) = some old := by
    rw [hmod]
    exact hold
  unfold update
  rw [hb]
  cases h1 : old.relationships <;> cases h2 : record.relationships <;> simp [h1, h2]

/-! ### Claim theorems -/

/-- C2: for every stored relationship-index entry whose `relatedIds` is a
list, the `related` accessor returns the store records resolved from those
ids in exactly `relatedIds` order, silently dropping every id that does
not resolve (no error, no `undefined` placeholder) — the result is
precisely `ids.filterMap` of the by-id lookup. -/
theorem related_list_resolves_in_order (resourceName : String) (st : ModuleState)
    (params : RelParams) (entry : RelEntry) (ids : List String)
    (hfind : st.related.find? (relMatches (getRelationshipIndex resourceName params)) =
      some entry)
    (hids : entry.relatedIds = .many ids) :
    related resourceName st params =
      .list (ids.filterMap (fun id => st.records.find? (fun r => r.id = id))) := by
  simp only [related, hfind, hids]
  rw [List.filterMap_map]
  rfl

/-- Witness for C2: the spec's relationship round-trip, with a dangling id
`'404'` dropped: the accessor returns `[widget27, widget42]`. -/
theorem related_list_resolves_in_order_witness :
    roundTripState.related.find?
      (relMatches (getRelationshipIndex "widgets"
        { parent := some ⟨"users", "42"⟩, relationship := some "purchased-widgets" })) =
      some { parent := some ⟨"users", "42"⟩, relationship := "purchased-widgets",
             relatedIds := .many ["27", "42", "404"] } ∧
    related "widgets" roundTripState
      { parent := some ⟨"users", "42"⟩, relationship := some "purchased-widgets" } =
      .list [widget27, widget42] := by
  constructor
  · decide
  · rw [related_list_resolves_in_order "widgets" roundTripState
      { parent := some ⟨"users", "42"⟩, relationship := some "purchased-widgets" }
      { parent := some ⟨"users", "42"⟩, relationship := "purchased-widgets",
        relatedIds := .many ["27", "42", "404"] }
      ["27", "42", "404"] (by decide) rfl]
    decide

/-- C7: never-queried lookups are distinguished by result shape — with no
matching relationship-index entry `related` returns `null`, while with no
matching filter-index entry `where` returns the empty list. -/
theorem unknown_queries_shapes (resourceName : String) (st st2 : ModuleState)
    (params : RelParams) (qparams : List (String × Value))
    (hrel : st.related.find? (relMatches (getRelationshipIndex resourceName params)) = none)
    (hfil : st2.filtered.find? (fun e => matchesParams qparams e.params) = none) :
    related resourceName st params = .null ∧ whereGet st2 qparams = [] := by
  constructor
  · unfold related
    rw [hrel]
  · unfold whereGet
    rw [hfil]

/-- Witness for C7 at the initial (never-queried) state. -/
theorem unknown_queries_shapes_witness :
    related "widgets" initialState { parent := some ⟨"users", "1"⟩ } = .null ∧
    whereGet initialState [("filter", .obj [("size", .str "large")])] = [] :=
  unknown_queries_shapes "widgets" initialState initialState
    { parent := some ⟨"users", "1"⟩ } [("filter", .obj [("size", .str "large")])]
    (by decide) (by decide)

/-- C8: `RESET_STATE` restores the initial per-type state wholesale: the
store, the relationship/filter/page indexes, status, links, error, meta
and lastCreated are all back at their initial values, and the `resetState`
action does exactly this to the dispatched module. -/
theorem reset_state_restores_initial (st : ModuleState) (resourceName : String)
    (params : RelParams) (qparams : List (String × Value)) (g : GlobalStore) (self : String) :
    RESET_STATE st = initialState ∧
    all (RESET_STATE st) = [] ∧
    related resourceName (RESET_STATE st) params = .null ∧
    whereGet (RESET_STATE st) qparams = [] ∧
    page (RESET_STATE st) = [] ∧
    (RESET_STATE st).status = Status.INITIAL ∧
    errorGetter (RESET_STATE st) = none ∧
    lastMeta (RESET_STATE st) = none ∧
    lastCreated (RESET_STATE st) = none ∧
    (RESET_STATE st).links = {} ∧
    lookupModule (resetState g self) self =
      (lookupModule g self).map (fun _ => initialState) := by
  refine ⟨rfl, rfl, rfl, rfl, rfl, rfl, rfl, rfl, rfl, rfl, ?_⟩
  show lookupModule (updateModule g self RESET_STATE) self = _
  rw [lookupModule_updateModule]
  cases lookupModule g self <;> simp [RESET_STATE]

/-- C9: a rejected transport call during `create`, `update` or `delete`
re-raises the same error value and leaves the whole registry — hence every
per-type state — exactly as it was: all mutation sits in the success
continuation. -/
theorem write_failure_is_atomic (g : GlobalStore) (self : String) (record : RRecord)
    (e : Value) :
    create g self (.error e) = (g, .error e) ∧
    update g self record (.error e) = (g, .error e) ∧
    deleteAction g self record (.error e) = (g, .error e) :=
  ⟨rfl, rfl, rfl⟩

/-- C10: unlike `related`, the `where` accessor maps the stored
`matchedIds` over the store without dropping danglers: the result has
exactly the length of `matchedIds`, with `undefined` (`none`) at every
position whose id no longer resolves. -/
theorem where_keeps_dangling_ids (st : ModuleState) (qparams : List (String × Value))
    (entry : FilterEntry)
    (hfind : st.filtered.find? (fun e => matchesParams qparams e.params) = some entry) :
    whereGet st qparams =
      entry.matchedIds.map (fun id => st.records.find? (fun r => r.id = id)) ∧
    (whereGet st qparams).length = entry.matchedIds.length := by
  have h : whereGet st qparams =
      entry.matchedIds.map (fun id => st.records.find? (fun r => r.id = id)) := by
    unfold whereGet
    rw [hfind]
  exact ⟨h, by rw [h, List.length_map]⟩

/-- Witness for C10: a filter entry with matched ids `['1','404']` where
only `'1'` resolves yields `[some widget1, none]` — an `undefined`
placeholder, not a shorter list. -/
theorem where_keeps_dangling_ids_witness :
    filteredState.filtered.find?
      (fun e => matchesParams [("filter", .obj [("size", .str "large")])] e.params) =
      some { params := [("filter", .obj [("size", .str "large")])],
             matchedIds := ["1", "404"] } ∧
    whereGet filteredState [("filter", .obj [("size", .str "large")])] =
      [some widget1, none] := by
  constructor
  · decide
  · rw [(where_keeps_dangling_ids filteredState
      [("filter", .obj [("size", .str "large")])]
      { params := [("filter", .obj [("size", .str "large")])],
        matchedIds := ["1", "404"] } (by decide)).1]
    decide

/-- C1 counterexample: at a concrete compound document whose primary
record carries `author: { data: null }`, resolution records NO
relationship-index entry for (post 1, "author") — the claim says an entry
with `relatedIds = null` is recorded.  The `related` read afterwards
returns `null` ("never loaded"), not the "known absent" shape. -/
theorem storeIncluded_null_to_one_counterexample :
    (lookupModule (storeIncluded postsPeopleStore (.one postNullAuthor) (some [person9]))
        "people").map (fun st => st.related) = some [] ∧
    (lookupModule (storeIncluded postsPeopleStore (.one postNullAuthor) (some [person9]))
        "people").map (fun st => related "people" st
          { parent := some ⟨"posts", "1"⟩, relationship := some "author" }) =
      some RelatedReturn.null := by
  exact ⟨by decide, by decide⟩

/-- C1 (amended): during compound-document resolution a to-one
relationship whose `data` is explicitly null is skipped, not recorded:
`storeIncluded` never creates a `relatedIds = null` entry, so every nulled
entry found after resolution was already present before it. -/
theorem storeIncluded_records_no_null_entry (g : GlobalStore) (data : PrimaryData)
    (included : Option (List RRecord)) (t : String) (st' : ModuleState) (e : RelEntry)
    (h1 : lookupModule (storeIncluded g data included) t = some st')
    (h2 : e ∈ st'.related) (h3 : e.relatedIds = RelatedIds.null) :
    ∃ st, lookupModule g t = some st ∧ e ∈ st.related := by
  have hP : PreservesNullEntries g (storeIncluded g data included) := by
    cases included with
    | none => exact preservesNullEntries_refl g
    | some inc =>
      show PreservesNullEntries g
        ((scannedRecords data inc).foldl storeIncludedRecordRels
          (inc.foldl (fun g r => dispatchStoreRecord g r.type r) g))
      exact preservesNullEntries_trans
        (preservesNullEntries_foldl (fun g r => dispatchStoreRecord g r.type r)
          (fun g r => preservesNullEntries_dispatchStoreRecord g r.type r) inc g)
        (preservesNullEntries_foldl storeIncludedRecordRels
          preservesNullEntries_storeIncludedRecordRels (scannedRecords data inc) _)
  exact hP t st' e h1 h2 h3

/-- Witness for the amended C1: resolving a document over a module that
already holds a nulled entry (written earlier by `update`) keeps exactly
that pre-existing entry. -/
theorem storeIncluded_records_no_null_entry_witness :
    lookupModule (storeIncluded peopleStoreWithNullEntry (.one postNullAuthor)
        (some [person9])) "people" =
      some { peopleWithNullEntry with records := [person9] } ∧
    nullAuthorEntry ∈ ({ peopleWithNullEntry with records := [person9] } : ModuleState).related ∧
    (∃ st, lookupModule peopleStoreWithNullEntry "people" = some st ∧
      nullAuthorEntry ∈ st.related) := by
  refine ⟨by decide, by decide, ?_⟩
  exact storeIncluded_records_no_null_entry peopleStoreWithNullEntry (.one postNullAuthor)
    (some [person9]) "people" { peopleWithNullEntry with records := [person9] }
    nullAuthorEntry (by decide) (by decide) rfl

/-- C4: a successful `loadAll` replaces the module's records wholesale
with the response: with no side-loaded `included` records, the `all`
accessor afterwards is exactly the response list; and in general every id
present before but absent from the whole response (both its primary data
and its `included` records) is evicted. -/
theorem loadAll_replaces_records_wholesale :
    (∀ (g : GlobalStore) (self : String) (st : ModuleState) (rs : List RRecord)
      (meta : Option Value), lookupModule g self = some st →
      (loadAll g self (.ok { data := rs, meta := meta })).2 = .ok () ∧
      ∃ st', lookupModule (loadAll g self (.ok { data := rs, meta := meta })).1 self =
          some st' ∧
        all st' = rs ∧ st'.status = Status.SUCCESS ∧
        ∀ i, i ∉ rs.map (fun r => r.id) → i ∉ (all st').map (fun r => r.id)) ∧
    (∀ (g : GlobalStore) (self : String) (st : ModuleState) (rs inc : List RRecord)
      (meta : Option Value) (links : Option Links) (i : String),
      lookupModule g self = some st →
      i ∉ rs.map (fun r => r.id) → i ∉ inc.map (fun r => r.id) →
      ∀ st', lookupModule (loadAll g self
          (.ok { data := rs, included := some inc, meta := meta, links := links })).1
          self = some st' →
        i ∉ (all st').map (fun r => r.id)) := by
  constructor
  · intro g self st rs meta hmod
    have hstep : lookupModule (loadAll g self (.ok { data := rs, meta := meta })).1 self =
        some (STORE_META
          (REPLACE_ALL_RECORDS (SET_STATUS (SET_STATUS st Status.LOADING) Status.SUCCESS)
            rs)
          meta) := by
      show lookupModule
          (updateModule (updateModule g self (fun st => SET_STATUS st Status.LOADING)) self
            (fun st =>
              STORE_META (REPLACE_ALL_RECORDS (SET_STATUS st Status.SUCCESS) rs) meta))
          self = _
      rw [lookupModule_updateModule, if_pos rfl, lookupModule_updateModule, if_pos rfl,
        hmod]
      rfl
    exact ⟨rfl, _, hstep, rfl, rfl, fun _i h => h⟩
  · intro g self st rs inc meta links i hmod hirs hiinc st' hlook hmem
    have hg1 : lookupModule
        (updateModule (updateModule g self (fun st => SET_STATUS st Status.LOADING)) self
          (fun st =>
            STORE_META (REPLACE_ALL_RECORDS (SET_STATUS st Status.SUCCESS) rs) meta))
        self =
        some (STORE_META
          (REPLACE_ALL_RECORDS (SET_STATUS (SET_STATUS st Status.LOADING) Status.SUCCESS)
            rs)
          meta) := by
      rw [lookupModule_updateModule, if_pos rfl, lookupModule_updateModule, if_pos rfl,
        hmod]
      rfl
    have hadds := addsOnlyIds_storeIncluded
      (updateModule (updateModule g self (fun st => SET_STATUS st Status.LOADING)) self
        (fun st =>
          STORE_META (REPLACE_ALL_RECORDS (SET_STATUS st Status.SUCCESS) rs) meta))
      (.many rs) inc
    obtain ⟨x, hx, hxid⟩ := List.mem_map.1 hmem
    rcases hadds self st' x hlook hx with ⟨st1, hst1, hid1⟩ | hinc
    · rw [hg1] at hst1
      obtain rfl : STORE_META
          (REPLACE_ALL_RECORDS (SET_STATUS (SET_STATUS st Status.LOADING) Status.SUCCESS)
            rs)
          meta = st1 := by injection hst1
      exact hirs (hxid ▸ hid1)
    · exact hiinc (hxid ▸ hinc)

/-- Witness for C4: the spec's eviction example — a `loadAll` returning
ids 1 and 3 after one returning ids 1 and 2 leaves `all` with exactly ids
1 and 3; id 2 is evicted — and id 2 stays evicted even when the second
response side-loads an unrelated included record. -/
theorem loadAll_replaces_records_wholesale_witness :
    lookupModule afterFirstLoadAll "widgets" =
      some { initialState with records := [widget1, widget2], status := Status.SUCCESS } ∧
    (∃ st', lookupModule (loadAll afterFirstLoadAll "widgets"
        (.ok { data := [widget1, widget3] })).1 "widgets" = some st' ∧
      all st' = [widget1, widget3] ∧ "2" ∉ (all st').map (fun r => r.id)) ∧
    (∀ st', lookupModule (loadAll afterFirstLoadAll "widgets"
        (.ok { data := [widget1, widget3], included := some [person9] })).1 "widgets" =
        some st' → "2" ∉ (all st').map (fun r => r.id)) := by
  refine ⟨by decide, ?_, ?_⟩
  · obtain ⟨-, st', hl, hall, -, hev⟩ :=
      loadAll_replaces_records_wholesale.1 afterFirstLoadAll "widgets"
        { initialState with records := [widget1, widget2], status := Status.SUCCESS }
        [widget1, widget3] none (by decide)
    exact ⟨st', hl, hall, hev "2" (by decide)⟩
  · intro st' hl
    exact loadAll_replaces_records_wholesale.2 afterFirstLoadAll "widgets"
      { initialState with records := [widget1, widget2], status := Status.SUCCESS }
      [widget1, widget3] [person9] none none "2" (by decide) (by decide) (by decide)
      st' hl

/-- C5: a rejected transport call during any of the five load-class
operations re-raises the same error value, transitions the module's
status to ERROR (so `isLoading` is false and `isError` is true) and
snapshots the error into the `error` accessor. -/
theorem load_failures_set_error_and_reraise (g : GlobalStore) (self : String)
    (st : ModuleState) (e : Value) (qparams : List (String × Value)) (rparams : RelParams)
    (hmod : lookupModule g self = some st) :
    (loadAll g self (.error e)).2 = .error e ∧
    (loadById g self (.error e)).2 = .error e ∧
    (loadWhere g self qparams (.error e)).2 = .error e ∧
    (loadPage g self (.error e)).2 = .error e ∧
    (loadRelated g self rparams (.error e)).2 = .error e ∧
    lookupModule (loadAll g self (.error e)).1 self =
      some (STORE_ERROR (SET_STATUS (SET_STATUS st Status.LOADING) Status.ERROR) e) ∧
    lookupModule (loadById g self (.error e)).1 self =
      some (STORE_ERROR (SET_STATUS (SET_STATUS st Status.LOADING) Status.ERROR) e) ∧
    lookupModule (loadWhere g self qparams (.error e)).1 self =
      some (STORE_ERROR (SET_STATUS (SET_STATUS st Status.LOADING) Status.ERROR) e) ∧
    lookupModule (loadPage g self (.error e)).1 self =
      some (STORE_ERROR (SET_STATUS (SET_STATUS st Status.LOADING) Status.ERROR) e) ∧
    lookupModule (loadRelated g self rparams (.error e)).1 self =
      some (STORE_ERROR (SET_STATUS (SET_STATUS st Status.LOADING) Status.ERROR) e) ∧
    isLoading (STORE_ERROR (SET_STATUS (SET_STATUS st Status.LOADING) Status.ERROR) e) =
      false ∧
    isError (STORE_ERROR (SET_STATUS (SET_STATUS st Status.LOADING) Status.ERROR) e) =
      true ∧
    errorGetter (STORE_ERROR (SET_STATUS (SET_STATUS st Status.LOADING) Status.ERROR) e) =
      some e := by
  have hcore : lookupModule
      (handleError (updateModule g self (fun st => SET_STATUS st Status.LOADING)) self e)
      self =
      some (STORE_ERROR (SET_STATUS (SET_STATUS st Status.LOADING) Status.ERROR) e) := by
    unfold handleError
    rw [lookupModule_updateModule, if_pos rfl, lookupModule_updateModule, if_pos rfl, hmod]
    rfl
  exact ⟨rfl, rfl, rfl, rfl, rfl, hcore, hcore, hcore, hcore, hcore, rfl, rfl, rfl⟩

/-- Witness for C5: a failed `loadAll` on a fresh widgets module. -/
theorem load_failures_witness :
    (loadAll widgetsStore "widgets" (.error (.str "boom"))).2 = .error (.str "boom") ∧
    lookupModule (loadAll widgetsStore "widgets" (.error (.str "boom"))).1 "widgets" =
      some { initialState with status := Status.ERROR, error := some (.str "boom") } := by
  obtain ⟨h1, -, -, -, -, h6, -⟩ :=
    load_failures_set_error_and_reraise widgetsStore "widgets" initialState (.str "boom")
      [] {} (by decide)
  exact ⟨h1, h6⟩

/-- C6: the Entity Store upsert is last-write-wins and idempotent: a fresh
id is appended; an existing id is shallow-merged in place (length kept,
lookup finds the merge); the number of records under the stored id is the
old count clamped up to one (so a deduplicated store keeps exactly one);
and upserting the same record twice equals upserting it once.  The
operation is a total function — it never fails. -/
theorem upsert_merge_idempotent_append :
    (∀ (l : List RRecord) (r : RRecord), (∀ x ∈ l, x.id ≠ r.id) →
      storeRecord l r = l ++ [r]) ∧
    (∀ (l : List RRecord) (r old : RRecord),
      l.find? (fun x => x.id = r.id) = some old →
      (storeRecord l r).length = l.length ∧
      (storeRecord l r).find? (fun x => x.id = r.id) = some (mergeRecord old r)) ∧
    (∀ (l : List RRecord) (r : RRecord),
      (storeRecord l r).countP (fun x => x.id = r.id) =
        max 1 (l.countP (fun x => x.id = r.id))) ∧
    (∀ (l : List RRecord) (r : RRecord), storeRecord (storeRecord l r) r = storeRecord l r) :=
  ⟨storeRecord_fresh,
   fun l r old h => ⟨storeRecord_length_of_found l r old h, find?_storeRecord_merge l r old h⟩,
   storeRecord_countP,
   storeRecord_idem⟩

/-- Witness for C6: the spec's merge-overwrite example — storing title 'A'
then title 'B' under id 1 leaves one record whose lookup yields the 'B'
version — and a fresh id is appended. -/
theorem upsert_merge_idempotent_append_witness :
    storeRecord [widget2] widget3 = [widget2, widget3] ∧
    (storeRecord [widgetTitleA] widgetTitleB).find? (fun x => x.id = widgetTitleB.id) =
      some widgetTitleB ∧
    (storeRecord [widgetTitleA] widgetTitleB).length = 1 := by
  obtain ⟨hfresh, hmerge, -, -⟩ := upsert_merge_idempotent_append
  refine ⟨?_, ?_, ?_⟩
  · exact hfresh [widget2] widget3 (by decide)
  · exact (hmerge [widgetTitleA] widgetTitleB widgetTitleA (by decide)).2
  · exact (hmerge [widgetTitleA] widgetTitleB widgetTitleA (by decide)).1

/-- A found to-one index entry resolves through the getter to the single
by-id lookup of its stored id. -/
theorem related_single_of_find (resourceName : String) (st : ModuleState)
    (params : RelParams) (entry : RelEntry) (id : String)
    (hfind : st.related.find? (relMatches (getRelationshipIndex resourceName params)) =
      some entry)
    (hids : entry.relatedIds = .one id) :
    related resourceName st params =
      .single (st.records.find? (fun r => id = r.id)) := by
  simp only [related, hfind, hids]

/-- C3: after a successful `update(record)` against any registry and any
cached old version: (A) the call resolves; (B) the module's store holds
the record as given, shallow-merged client-optimistically over the cached
version (the server echo is ignored); (C) every relationship the old
cached version had whose name is absent from the new record has its index
entry overwritten to `relatedIds = null` in the target type's module;
(D) every relationship present in the new record with non-empty data —
to-one or to-many — is (re)stored under (new record identifier, name) in
its target type's module, overwriting whatever was there; and (E) in
particular, for a to-one relationship moved to a new id, a subsequent
`related({parent: record, relationship})` read returns the new target
record. -/
theorem update_reconciles_relationship_delta
    (g : GlobalStore) (self : String) (st : ModuleState) (record old : RRecord)
    (hmod : lookupModule g self = some st)
    (hold : st.records.find? (fun r => r.id = record.id) = some old) :
    (update g self record (.ok ())).2 = .ok () ∧
    (∃ dst', lookupModule (update g self record (.ok ())).1 self = some dst' ∧
      byId dst' record.id = some (mergeRecord old record)) ∧
    (∀ name entity t, (name, entity) ∈ old.relationships.getD [] →
      getRelationshipType entity = some t → ModuleRegistered g t →
      name ∉ (record.relationships.getD []).map Prod.fst →
      EntryAtKey (update g self record (.ok ())).1 t
        ⟨some (recordIdentifier old), name⟩ RelatedIds.null) ∧
    (∀ name relObj t, (name, relObj) ∈ record.relationships.getD [] →
      storedByUpdate relObj = true → getRelationshipType relObj = some t →
      ModuleRegistered g t →
      ((record.relationships.getD []).map Prod.fst).Nodup →
      EntryAtKey (update g self record (.ok ())).1 t
        ⟨some (recordIdentifier record), name⟩ (extractRelatedIds relObj)) ∧
    (∀ name rid t stT r3, (name, ⟨RelData.one rid⟩) ∈ record.relationships.getD [] →
      rid.type = t → rid.type ≠ "" → rid.id ≠ "" → t ≠ self →
      ((record.relationships.getD []).map Prod.fst).Nodup →
      lookupModule g t = some stT →
      stT.records.find? (fun r => rid.id = r.id) = some r3 →
      ∃ stT', lookupModule (update g self record (.ok ())).1 t = some stT' ∧
        related t stT'
          { parent := some ⟨record.type, record.id⟩, relationship := some name } =
          .single (some r3)) := by
  have hrun := update_ok_run g self record old st hmod hold
  set gP1 := (old.relationships.getD []).foldl (updateRemoveOldRel old) g with hgP1
  set gP2 := updateModule gP1 self (fun st => STORE_RECORD st record) with hgP2
  set gFin := (record.relationships.getD []).foldl (updateStoreNewRel record) gP2
    with hgFin
  have hfst : (update g self record (.ok ())).1 = gFin := by rw [hrun]
  -- (B): the record lands in the self module, merged over the old version
  have hp1rec : (lookupModule gP1 self).map (fun s => s.records) = some st.records := by
    rw [hgP1, records_updateRemoveOldRels old _ g self, hmod]
    rfl
  obtain ⟨st1, hst1, hst1rec⟩ :
      ∃ st1, lookupModule gP1 self = some st1 ∧ st1.records = st.records := by
    cases hc : lookupModule gP1 self with
    | none => rw [hc] at hp1rec; exact Option.noConfusion hp1rec
    | some st1 =>
      rw [hc] at hp1rec
      exact ⟨st1, rfl, by injection hp1rec⟩
  have hp2 : lookupModule gP2 self = some (STORE_RECORD st1 record) := by
    rw [hgP2, lookupModule_updateModule, if_pos rfl, hst1]
    rfl
  have hp3rec : (lookupModule gFin self).map (fun s => s.records) =
      some (storeRecord st1.records record) := by
    rw [hgFin, records_foldl (updateStoreNewRel record)
      (fun g x t => records_updateStoreNewRel record g x t) _ gP2 self, hp2]
    rfl
  have hB : ∃ dst', lookupModule (update g self record (.ok ())).1 self = some dst' ∧
      byId dst' record.id = some (mergeRecord old record) := by
    rw [hfst]
    cases hc : lookupModule gFin self with
    | none => rw [hc] at hp3rec; exact Option.noConfusion hp3rec
    | some dst' =>
      rw [hc] at hp3rec
      have hdrec : dst'.records = storeRecord st1.records record := by injection hp3rec
      refine ⟨dst', rfl, ?_⟩
      show dst'.records.find? (fun r => r.id = record.id) = _
      rw [hdrec, hst1rec]
      exact find?_storeRecord_merge st.records record old hold
  -- (C): old relationships absent from the new record end up nulled
  have hC : ∀ name entity t, (name, entity) ∈ old.relationships.getD [] →
      getRelationshipType entity = some t → ModuleRegistered g t →
      name ∉ (record.relationships.getD []).map Prod.fst →
      EntryAtKey (update g self record (.ok ())).1 t
        ⟨some (recordIdentifier old), name⟩ RelatedIds.null := by
    intro name entity t hmem htype hreg habs
    obtain ⟨pre, post, hsplit⟩ := List.append_of_mem hmem
    have hreg1 : ModuleRegistered (pre.foldl (updateRemoveOldRel old) g) t :=
      foldl_pres (fun g0 => ModuleRegistered g0 t) (updateRemoveOldRel old) pre
        (fun x _ g0 h0 => registered_updateRemoveOldRel old g0 x t h0) g hreg
    have hstep : EntryAtKey
        (updateRemoveOldRel old (pre.foldl (updateRemoveOldRel old) g) (name, entity)) t
        ⟨some (recordIdentifier old), name⟩ RelatedIds.null := by
      show EntryAtKey
        (dispatchStoreRelated (pre.foldl (updateRemoveOldRel old) g)
          (getRelationshipType entity) RelatedIds.null
          { parent := some (recordIdentifier old), relationship := some name }) t _ _
      rw [htype]
      exact entryAtKey_establish _ t RelatedIds.null _ hreg1
    have hP1 : EntryAtKey gP1 t ⟨some (recordIdentifier old), name⟩ RelatedIds.null := by
      rw [hgP1, hsplit, List.foldl_append, List.foldl_cons]
      exact foldl_pres
        (fun g0 => EntryAtKey g0 t ⟨some (recordIdentifier old), name⟩ RelatedIds.null)
        (updateRemoveOldRel old) post
        (fun x _ g0 h0 => entryAtKey_null_updateRemoveOldRel old g0 x t _ h0) _ hstep
    have hP2 : EntryAtKey gP2 t ⟨some (recordIdentifier old), name⟩ RelatedIds.null := by
      rw [hgP2]
      exact entryAtKey_updateModule_records gP1 self (fun s => STORE_RECORD s record)
        (fun _ => rfl) t _ _ hP1
    have hP3 : EntryAtKey gFin t ⟨some (recordIdentifier old), name⟩ RelatedIds.null := by
      rw [hgFin]
      exact foldl_pres
        (fun g0 => EntryAtKey g0 t ⟨some (recordIdentifier old), name⟩ RelatedIds.null)
        (updateStoreNewRel record) (record.relationships.getD [])
        (fun x hx g0 h0 => entryAtKey_updateStoreNewRel record g0 x.1 x.2 t _ _
          (fun hEq => habs (by
            have h2 : name = x.1 := hEq
            rw [h2]
            exact List.mem_map_of_mem Prod.fst hx)) h0)
        gP2 hP2
    rw [hfst]
    exact hP3
  -- (D): every non-empty new relationship is (re)stored
  have hD : ∀ name relObj t, (name, relObj) ∈ record.relationships.getD [] →
      storedByUpdate relObj = true → getRelationshipType relObj = some t →
      ModuleRegistered g t →
      ((record.relationships.getD []).map Prod.fst).Nodup →
      EntryAtKey (update g self record (.ok ())).1 t
        ⟨some (recordIdentifier record), name⟩ (extractRelatedIds relObj) := by
    intro name relObj t hmem hs htype hreg hnodup
    obtain ⟨pre, post, hsplit, hpost⟩ :=
      mem_split_nodup_keys (record.relationships.getD []) name relObj hmem hnodup
    have hreg1 : ModuleRegistered gP1 t := by
      rw [hgP1]
      exact foldl_pres (fun g0 => ModuleRegistered g0 t) (updateRemoveOldRel old)
        (old.relationships.getD [])
        (fun x _ g0 h0 => registered_updateRemoveOldRel old g0 x t h0) g hreg
    have hreg2 : ModuleRegistered gP2 t := by
      rw [hgP2]
      exact registered_updateModule gP1 self _ t hreg1
    have hreg3 : ModuleRegistered (pre.foldl (updateStoreNewRel record) gP2) t :=
      foldl_pres (fun g0 => ModuleRegistered g0 t) (updateStoreNewRel record) pre
        (fun x _ g0 h0 => registered_updateStoreNewRel record g0 x t h0) gP2 hreg2
    have hstep : EntryAtKey
        (updateStoreNewRel record (pre.foldl (updateStoreNewRel record) gP2)
          (name, relObj)) t
        ⟨some (recordIdentifier record), name⟩ (extractRelatedIds relObj) := by
      rw [updateStoreNewRel_eq_dispatch record _ name relObj hs, htype]
      exact entryAtKey_establish _ t _ _ hreg3
    have hP3 : EntryAtKey gFin t
        ⟨some (recordIdentifier record), name⟩ (extractRelatedIds relObj) := by
      rw [hgFin, hsplit, List.foldl_append, List.foldl_cons]
      exact foldl_pres
        (fun g0 => EntryAtKey g0 t ⟨some (recordIdentifier record), name⟩
          (extractRelatedIds relObj))
        (updateStoreNewRel record) post
        (fun x hx g0 h0 => entryAtKey_updateStoreNewRel record g0 x.1 x.2 t _ _
          (fun hEq => hpost (by
            have h2 : name = x.1 := hEq
            rw [h2]
            exact List.mem_map_of_mem Prod.fst hx)) h0)
        _ hstep
    rw [hfst]
    exact hP3
  -- (E): the to-one getter instance
  have hE : ∀ name rid t stT r3,
      (name, ⟨RelData.one rid⟩) ∈ record.relationships.getD [] →
      rid.type = t → rid.type ≠ "" → rid.id ≠ "" → t ≠ self →
      ((record.relationships.getD []).map Prod.fst).Nodup →
      lookupModule g t = some stT →
      stT.records.find? (fun r => rid.id = r.id) = some r3 →
      ∃ stT', lookupModule (update g self record (.ok ())).1 t = some stT' ∧
        related t stT'
          { parent := some ⟨record.type, record.id⟩, relationship := some name } =
          .single (some r3) := by
    intro name rid t stT r3 hmem htyeq hnety hneid hnsel hnodup hlookT hfound
    have hreg : ModuleRegistered g t := by
      unfold ModuleRegistered
      rw [hlookT]
      rfl
    have hent := hD name ⟨RelData.one rid⟩ t hmem
      (by simp [storedByUpdate, hnety, hneid]) (by rw [show getRelationshipType
        ⟨RelData.one rid⟩ = some rid.type from rfl, htyeq]) hreg hnodup
    obtain ⟨stT', e, hlook', hfind', hids'⟩ := hent
    have hrecT : (lookupModule (update g self record (.ok ())).1 t).map
        (fun s => s.records) = some stT.records := by
      rw [hfst, hgFin, records_foldl (updateStoreNewRel record)
        (fun g x t => records_updateStoreNewRel record g x t) _ gP2 t]
      rw [hgP2, lookupModule_updateModule, if_neg hnsel]
      rw [hgP1, records_updateRemoveOldRels old _ g t, hlookT]
      rfl
    have hrec' : stT'.records = stT.records := by
      rw [hlook'] at hrecT
      injection hrecT
    refine ⟨stT', hlook', ?_⟩
    refine (related_single_of_find t stT'
      { parent := some ⟨record.type, record.id⟩, relationship := some name }
      e rid.id hfind' hids').trans ?_
    exact congrArg RelatedReturn.single (by rw [hrec']; exact hfound)
  exact ⟨by rw [hrun], hB, hC, hD, hE⟩

/-- Witness for C3: a dish whose cached version has a `restaurant` to-one
pointing at id 2 and an `old-tags` to-many, updated to a version whose
`restaurant` points at id 3, whose `old-tags` is gone, and which adds a
`tags` to-many: the dropped relationship is nulled, the to-many is stored,
and the `related` read returns restaurant 3. -/
theorem update_reconciles_relationship_delta_witness :
    (∃ dst', lookupModule (update updateRichStore "dishes" dishNewRich (.ok ())).1
        "dishes" = some dst' ∧
      byId dst' dishNewRich.id = some (mergeRecord dishOldRich dishNewRich)) ∧
    EntryAtKey (update updateRichStore "dishes" dishNewRich (.ok ())).1 "tags"
      ⟨some ⟨"dishes", "5"⟩, "old-tags"⟩ RelatedIds.null ∧
    EntryAtKey (update updateRichStore "dishes" dishNewRich (.ok ())).1 "tags"
      ⟨some ⟨"dishes", "5"⟩, "tags"⟩ (RelatedIds.many ["7", "8"]) ∧
    (∃ rst', lookupModule (update updateRichStore "dishes" dishNewRich (.ok ())).1
        "restaurants" = some rst' ∧
      related "restaurants" rst'
        { parent := some ⟨dishNewRich.type, dishNewRich.id⟩,
          relationship := some "restaurant" } =
        .single (some restaurant3)) := by
  obtain ⟨-, hB, hC, hD, hE⟩ := update_reconciles_relationship_delta
    updateRichStore "dishes" { initialState with records := [dishOldRich] }
    dishNewRich dishOldRich (by decide) (by decide)
  refine ⟨hB, ?_, ?_, ?_⟩
  · exact hC "old-tags" ⟨RelData.many [⟨"tags", "7"⟩]⟩ "tags" (by decide) rfl
      (by decide) (by decide)
  · exact hD "tags" ⟨RelData.many [⟨"tags", "7"⟩, ⟨"tags", "8"⟩]⟩ "tags" (by decide)
      (by decide) rfl (by decide) (by decide)
  · exact hE "restaurant" ⟨"restaurants", "3"⟩ "restaurants"
      { initialState with
        records := [restaurant2, restaurant3],
        related := [{ parent := some ⟨"dishes", "5"⟩, relationship := "restaurant",
                      relatedIds := .one "2" }] }
      restaurant3 (by decide) rfl (by decide) (by decide) (by decide) (by decide)
      (by decide) (by decide)

end Reststate
